import Mathlib

/-!
Shallow embedding of the core of the `rust-iic` Apple IIc emulator:
the memory banks, the IOU soft-switch unit, the MMU bank switcher, the
bus, the 65C02-family CPU execution engine, the disassembler opcode
table and the ROM loader.  Machine integers are modelled as `Nat` with
explicit reduction modulo `2^8` / `2^16` where the Rust code wraps;
code that can panic (out-of-range `Vec` indexing) returns `Option`.
-/

namespace Iic

/-- u8 wrapping addition. -/
def wrapAdd8 (a b : Nat) : Nat := (a + b) % 256

/-- u8 wrapping subtraction (`a.wrapping_sub(b)` with both below 256). -/
def wrapSub8 (a b : Nat) : Nat := (a + 256 - b % 256) % 256

/-- u16 wrapping addition. -/
def wrapAdd16 (a b : Nat) : Nat := (a + b) % 0x10000

/-- u16 wrapping subtraction. -/
def wrapSub16 (a b : Nat) : Nat := (a + 0x10000 - b % 0x10000) % 0x10000

/-- The target of a relative branch: `pc.wrapping_add_signed(offset as i8 as i16)`
for an offset byte below 256. -/
def branchTarget (pc offset : Nat) : Nat :=
  if offset < 0x80 then (pc + offset) % 0x10000
  else (pc + offset + 0xFF00) % 0x10000

/-- Rust `check_bits_u8!(x, bit)` from `macros.rs`: `(x & bit) == bit`. -/
def checkBits (x bit : Nat) : Bool := (x &&& bit) == bit

/-- A fixed-size memory bank (`memory.rs`).  The Rust `Vec<u8>` is a size
together with a contents function. -/
structure Memory where
  size : Nat
  data : Nat → Nat
  id : String

/-- Rust `Memory::new(size, id)`: a zero-filled bank. -/
def Memory.new (size : Nat) (id : String) : Memory :=
  { size := size, data := fun _ => 0x00, id := id }

/-- Rust `Memory::read_byte`: out-of-range reads return 0. -/
def Memory.read_byte (m : Memory) (addr : Nat) : Nat :=
  if addr < m.size then m.data addr else 0x00

/-- Rust `Memory::write_byte`: the Rust code indexes `self.data[addr]` directly,
which panics when `addr` is out of range; the panic is modelled as `none`. -/
def Memory.write_byte (m : Memory) (addr value : Nat) : Option Memory :=
  if addr < m.size then
    some { m with data := fun i => if i = addr then value else m.data i }
  else
    none

/-- Rust `Memory::load_bytes(offset, bytes)`: copies when the slice fits, else no-op. -/
def Memory.load_bytes (m : Memory) (offset : Nat) (bytes : List Nat) : Memory :=
  if offset + bytes.length ≤ m.size then
    { m with data := fun i =>
        if offset ≤ i ∧ i < offset + bytes.length then bytes.getD (i - offset) 0
        else m.data i }
  else m

/- The memory-state bit masks from mmu.rs. -/
namespace MemStateMask

def INIT : Nat := 0b00100000
def ALTZP : Nat := 0b00000001
def P280STORE : Nat := 0b00000010
def RAMRD : Nat := 0b00000100
def RAMWRT : Nat := 0b00001000
def LCRAM : Nat := 0b00010000
def RDBNK : Nat := 0b00100000
def WRITE : Nat := 0b01000000
def ALTROM : Nat := 0b10000000

end MemStateMask

def LCRAMMODEMASK : Nat := 0b01110000

/- The $C080-$C08F Language Card mode values from mmu.rs. -/
namespace LcRamMode

def C080 : Nat := MemStateMask.RDBNK ||| MemStateMask.LCRAM
def C081 : Nat := MemStateMask.RDBNK ||| MemStateMask.WRITE
def C082 : Nat := MemStateMask.RDBNK
def C083 : Nat := MemStateMask.RDBNK ||| MemStateMask.LCRAM ||| MemStateMask.WRITE
def C088 : Nat := MemStateMask.LCRAM
def C089 : Nat := MemStateMask.WRITE
def C08A : Nat := 0x00
def C08B : Nat := MemStateMask.LCRAM ||| MemStateMask.WRITE
def C08C : Nat := MemStateMask.LCRAM
def C08D : Nat := MemStateMask.WRITE
def C08E : Nat := 0x00
def C08F : Nat := MemStateMask.LCRAM ||| MemStateMask.WRITE

end LcRamMode

/- The video-mode bit masks from video.rs. -/
namespace VideoModeMask

def TEXT : Nat := 0b00000001
def LORES : Nat := 0b00000010
def HIRES : Nat := 0b00000100
def DHIRES : Nat := 0b00001000
def MIXED : Nat := 0b00010000
def PAGE2 : Nat := 0b00100000
def COL80 : Nat := 0b01000000
def ALTCHAR : Nat := 0b10000000

end VideoModeMask

/-- Rust `set_lcram_mode!` from `iou.rs`: rewrite the LCRAMMODE sub-field. -/
def setLcramMode (mem_state mode : Nat) : Nat :=
  (mem_state &&& (0xFF ^^^ LCRAMMODEMASK)) ||| (mode &&& LCRAMMODEMASK)

/-- Rust `set_lcram_mode_rr!` from `iou.rs`: the two-read latch.  Returns the new
memory-state byte and the new `(last address, count)` counter. -/
def setLcramModeRR (mem_state mode addr : Nat) (counter : Nat × Nat) :
    Nat × (Nat × Nat) :=
  let last_addr := counter.1
  let count := counter.2
  let new_count := if last_addr = addr then count + 1 else 1
  let ms := if new_count ≥ 2 then setLcramMode mem_state mode else mem_state
  (ms, (addr, new_count))

/-- The IOU state (`iou.rs`): the memory-state byte, one two-read counter per
write-enabling `$C08x` address, the 80STORE and IOUDIS bits, the video-mode
byte and the keyboard latch. -/
structure IOU where
  mem_state : Nat
  c081_rr : Nat × Nat
  c083_rr : Nat × Nat
  c089_rr : Nat × Nat
  c08b_rr : Nat × Nat
  c08d_rr : Nat × Nat
  c08f_rr : Nat × Nat
  is_80store : Bool
  ioudis : Bool
  video_mode : Nat
  last_key : Nat
  key_ready : Bool

/-- Rust `IOU::new`. -/
def IOU.new : IOU :=
  { mem_state := MemStateMask.INIT
    c081_rr := (0x0000, 0)
    c083_rr := (0x0000, 0)
    c089_rr := (0x0000, 0)
    c08b_rr := (0x0000, 0)
    c08d_rr := (0x0000, 0)
    c08f_rr := (0x0000, 0)
    is_80store := false
    ioudis := false
    video_mode := VideoModeMask.TEXT
    last_key := 0
    key_ready := false }

/-- Rust `IOU::ss_read`: decode a soft-switch read.  The Rust method mutates the
IOU through `Cell`s; here it returns the updated IOU with the read value. -/
def IOU.ss_read (iou : IOU) (addr : Nat) : IOU × Nat :=
  let ioudis := iou.ioudis
  let is_80store := iou.is_80store
  match addr with
  | 0xC000 => (iou, 0x00)
  | 0xC015 => (iou, 0x00)
  | 0xC017 => (iou, 0x00)
  | 0xC018 => (iou, is_80store.toNat <<< 7)
  | 0xC019 => (iou, 0x00)
  | 0xC030 => (iou, 0x00)
  | 0xC040 => (iou, 0x00)
  | 0xC041 => (iou, 0x00)
  | 0xC042 => (iou, 0x00)
  | 0xC043 => (iou, 0x00)
  | 0xC048 => (iou, 0x00)
  | 0xC07E => (iou, ioudis.toNat <<< 7)
  | 0xC07F => (iou, (checkBits iou.video_mode VideoModeMask.DHIRES).toNat <<< 7)
  | 0xC080 => ({ iou with mem_state := setLcramMode iou.mem_state LcRamMode.C080 }, 0x00)
  | 0xC081 =>
    let r := setLcramModeRR iou.mem_state LcRamMode.C081 0xC081 iou.c081_rr
    ({ iou with mem_state := r.1, c081_rr := r.2 }, 0x00)
  | 0xC082 => ({ iou with mem_state := setLcramMode iou.mem_state LcRamMode.C082 }, 0x00)
  | 0xC083 =>
    let r := setLcramModeRR iou.mem_state LcRamMode.C083 0xC083 iou.c083_rr
    ({ iou with mem_state := r.1, c083_rr := r.2 }, 0x00)
  | 0xC088 => ({ iou with mem_state := setLcramMode iou.mem_state LcRamMode.C088 }, 0x00)
  | 0xC089 =>
    let r := setLcramModeRR iou.mem_state LcRamMode.C089 0xC089 iou.c089_rr
    ({ iou with mem_state := r.1, c089_rr := r.2 }, 0x00)
  | 0xC08A => ({ iou with mem_state := setLcramMode iou.mem_state LcRamMode.C08A }, 0x00)
  | 0xC08B =>
    let r := setLcramModeRR iou.mem_state LcRamMode.C08B 0xC08B iou.c08b_rr
    ({ iou with mem_state := r.1, c08b_rr := r.2 }, 0x00)
  | 0xC08C => ({ iou with mem_state := setLcramMode iou.mem_state LcRamMode.C08C }, 0x00)
  | 0xC08D =>
    let r := setLcramModeRR iou.mem_state LcRamMode.C08D 0xC08D iou.c08d_rr
    ({ iou with mem_state := r.1, c08d_rr := r.2 }, 0x00)
  | 0xC08E => ({ iou with mem_state := setLcramMode iou.mem_state LcRamMode.C08E }, 0x00)
  | 0xC08F =>
    let r := setLcramModeRR iou.mem_state LcRamMode.C08F 0xC08F iou.c08f_rr
    ({ iou with mem_state := r.1, c08f_rr := r.2 }, 0x00)
  | 0xC011 => (iou, (checkBits iou.mem_state MemStateMask.RDBNK).toNat <<< 7)
  | 0xC012 => (iou, (checkBits iou.mem_state MemStateMask.LCRAM).toNat <<< 7)
  | 0xC013 => (iou, (checkBits iou.mem_state MemStateMask.RAMRD).toNat <<< 7)
  | 0xC014 => (iou, (checkBits iou.mem_state MemStateMask.RAMWRT).toNat <<< 7)
  | 0xC016 => (iou, (checkBits iou.mem_state MemStateMask.ALTZP).toNat <<< 7)
  | 0xC01A => (iou, (checkBits iou.video_mode VideoModeMask.TEXT).toNat <<< 7)
  | 0xC01B => (iou, (checkBits iou.video_mode VideoModeMask.MIXED).toNat <<< 7)
  | 0xC01C => (iou, (checkBits iou.video_mode VideoModeMask.PAGE2).toNat <<< 7)
  | 0xC01D => (iou, (checkBits iou.video_mode VideoModeMask.HIRES).toNat <<< 7)
  | 0xC01E => (iou, (checkBits iou.video_mode VideoModeMask.ALTCHAR).toNat <<< 7)
  | 0xC01F => (iou, (checkBits iou.video_mode VideoModeMask.COL80).toNat <<< 7)
  | 0xC050 =>
    let vm := iou.video_mode &&& (0xFF ^^^ VideoModeMask.TEXT)
    ({ iou with video_mode := vm }, vm)
  | 0xC051 =>
    let vm := iou.video_mode ||| VideoModeMask.TEXT
    ({ iou with video_mode := vm }, vm)
  | 0xC052 =>
    let vm := iou.video_mode &&& (0xFF ^^^ VideoModeMask.MIXED)
    ({ iou with video_mode := vm }, vm)
  | 0xC053 =>
    let vm := iou.video_mode ||| VideoModeMask.MIXED
    ({ iou with video_mode := vm }, vm)
  | 0xC054 =>
    let vm := iou.video_mode &&& (0xFF ^^^ VideoModeMask.PAGE2)
    ({ iou with video_mode := vm }, vm)
  | 0xC055 =>
    let vm := iou.video_mode ||| VideoModeMask.PAGE2
    ({ iou with video_mode := vm }, vm)
  | 0xC056 =>
    let vm1 := iou.video_mode &&& (0xFF ^^^ (VideoModeMask.HIRES ||| VideoModeMask.DHIRES))
    let vm2 := vm1 ||| VideoModeMask.LORES
    ({ iou with video_mode := vm2 }, vm2)
  | 0xC057 =>
    let vm1 := iou.video_mode &&& (0xFF ^^^ VideoModeMask.LORES)
    let vm2 := vm1 ||| VideoModeMask.HIRES
    ({ iou with video_mode := vm2 }, vm2)
  | 0xC058 => (iou, 0x00)
  | 0xC059 => (iou, 0x00)
  | 0xC05A => (iou, 0x00)
  | 0xC05B => (iou, 0x00)
  | 0xC05C => (iou, 0x00)
  | 0xC05D => (iou, 0x00)
  | 0xC05E =>
    if ioudis then (iou, 0x00)
    else
      let vm := iou.video_mode ||| VideoModeMask.DHIRES
      ({ iou with video_mode := vm }, vm)
  | 0xC05F =>
    if ioudis then (iou, 0x00)
    else
      let vm := iou.video_mode &&& (0xFF ^^^ VideoModeMask.DHIRES)
      ({ iou with video_mode := vm }, vm)
  | 0xC060 => (iou, (checkBits iou.video_mode VideoModeMask.COL80).toNat <<< 7)
  | 0xC061 => (iou, 0x00)
  | 0xC063 => (iou, 0x00)
  | 0xC064 => (iou, 0x00)
  | 0xC065 => (iou, 0x00)
  | 0xC066 => (iou, 0x00)
  | 0xC067 => (iou, 0x00)
  | 0xC070 => (iou, 0x00)
  | 0xC0E0 => (iou, 0x00)
  | 0xC0E1 => (iou, 0x00)
  | 0xC0E2 => (iou, 0x00)
  | 0xC0E3 => (iou, 0x00)
  | 0xC0E4 => (iou, 0x00)
  | 0xC0E5 => (iou, 0x00)
  | 0xC0E6 => (iou, 0x00)
  | 0xC0E7 => (iou, 0x00)
  | 0xC0E8 => (iou, 0x00)
  | 0xC0E9 => (iou, 0x00)
  | 0xC0EA => (iou, 0x00)
  | 0xC0EB => (iou, 0x00)
  | 0xC0EC => (iou, 0x00)
  | 0xC0ED => (iou, 0x00)
  | 0xC0EE => (iou, 0x00)
  | _ => (iou, 0x00)

/-- Rust `IOU::ss_write`: decode a soft-switch write (the written value is not an
argument — the Rust method only receives the address). -/
def IOU.ss_write (iou : IOU) (addr : Nat) : IOU × Nat :=
  let ioudis := iou.ioudis
  match addr with
  | 0xC000 => ({ iou with is_80store := false }, 0x00)
  | 0xC001 => ({ iou with is_80store := true }, 0x00)
  | 0xC00C =>
    let vm := iou.video_mode &&& (0xFF ^^^ VideoModeMask.COL80)
    ({ iou with video_mode := vm }, vm)
  | 0xC00D =>
    let vm := iou.video_mode ||| VideoModeMask.COL80
    ({ iou with video_mode := vm }, vm)
  | 0xC00E =>
    let vm := iou.video_mode &&& (0xFF ^^^ VideoModeMask.ALTCHAR)
    ({ iou with video_mode := vm }, vm)
  | 0xC00F =>
    let vm := iou.video_mode ||| VideoModeMask.ALTCHAR
    ({ iou with video_mode := vm }, vm)
  | 0xC010 => (iou, 0x00)
  | 0xC080 => ({ iou with mem_state := setLcramMode iou.mem_state LcRamMode.C080 }, 0x00)
  | 0xC081 => ({ iou with mem_state := setLcramMode iou.mem_state LcRamMode.C081 }, 0x00)
  | 0xC082 => ({ iou with mem_state := setLcramMode iou.mem_state LcRamMode.C082 }, 0x00)
  | 0xC083 => ({ iou with mem_state := setLcramMode iou.mem_state LcRamMode.C083 }, 0x00)
  | 0xC088 => ({ iou with mem_state := setLcramMode iou.mem_state LcRamMode.C088 }, 0x00)
  | 0xC089 => ({ iou with mem_state := setLcramMode iou.mem_state LcRamMode.C089 }, 0x00)
  | 0xC08A => ({ iou with mem_state := setLcramMode iou.mem_state LcRamMode.C08A }, 0x00)
  | 0xC08B => ({ iou with mem_state := setLcramMode iou.mem_state LcRamMode.C08B }, 0x00)
  | 0xC08C => ({ iou with mem_state := setLcramMode iou.mem_state LcRamMode.C08C }, 0x00)
  | 0xC08D => ({ iou with mem_state := setLcramMode iou.mem_state LcRamMode.C08D }, 0x00)
  | 0xC08E => ({ iou with mem_state := setLcramMode iou.mem_state LcRamMode.C08E }, 0x00)
  | 0xC08F => ({ iou with mem_state := setLcramMode iou.mem_state LcRamMode.C08F }, 0x00)
  | 0xC07E => ({ iou with ioudis := false }, 0x00)
  | 0xC07F => ({ iou with ioudis := true }, 0x00)
  | 0xC008 =>
    let ms := iou.mem_state &&& (0xFF ^^^ MemStateMask.ALTZP)
    ({ iou with mem_state := ms }, ms)
  | 0xC009 =>
    let ms := iou.mem_state ||| MemStateMask.ALTZP
    ({ iou with mem_state := ms }, ms)
  | 0xC002 =>
    let ms := iou.mem_state &&& (0xFF ^^^ MemStateMask.RAMRD)
    ({ iou with mem_state := ms }, ms)
  | 0xC003 =>
    let ms := iou.mem_state ||| MemStateMask.RAMRD
    ({ iou with mem_state := ms }, ms)
  | 0xC004 =>
    let ms := iou.mem_state &&& (0xFF ^^^ MemStateMask.RAMWRT)
    ({ iou with mem_state := ms }, ms)
  | 0xC005 =>
    let ms := iou.mem_state ||| MemStateMask.RAMWRT
    ({ iou with mem_state := ms }, ms)
  | 0xC028 =>
    let ms := iou.mem_state ^^^ MemStateMask.ALTROM
    ({ iou with mem_state := ms }, ms)
  | 0xC048 => (iou, 0x00)
  | 0xC050 =>
    let vm := iou.video_mode &&& (0xFF ^^^ VideoModeMask.TEXT)
    ({ iou with video_mode := vm }, vm)
  | 0xC051 =>
    let vm := iou.video_mode ||| VideoModeMask.TEXT
    ({ iou with video_mode := vm }, vm)
  | 0xC052 =>
    let vm := iou.video_mode &&& (0xFF ^^^ VideoModeMask.MIXED)
    ({ iou with video_mode := vm }, vm)
  | 0xC053 =>
    let vm := iou.video_mode ||| VideoModeMask.MIXED
    ({ iou with video_mode := vm }, vm)
  | 0xC054 =>
    let vm := iou.video_mode &&& (0xFF ^^^ VideoModeMask.PAGE2)
    ({ iou with video_mode := vm }, vm)
  | 0xC055 =>
    let vm := iou.video_mode ||| VideoModeMask.PAGE2
    ({ iou with video_mode := vm }, vm)
  | 0xC056 =>
    let vm1 := iou.video_mode &&& (0xFF ^^^ (VideoModeMask.HIRES ||| VideoModeMask.DHIRES))
    let vm2 := vm1 ||| VideoModeMask.LORES
    ({ iou with video_mode := vm2 }, vm2)
  | 0xC057 =>
    let vm1 := iou.video_mode &&& (0xFF ^^^ VideoModeMask.LORES)
    let vm2 := vm1 ||| VideoModeMask.HIRES
    ({ iou with video_mode := vm2 }, vm2)
  | 0xC073 => (iou, 0x00)
  | 0xC078 => ({ iou with ioudis := true }, 0x00)
  | 0xC079 => ({ iou with ioudis := false }, 0x00)
  | 0xC058 => (iou, 0x00)
  | 0xC059 => (iou, 0x00)
  | 0xC05A => (iou, 0x00)
  | 0xC05B => (iou, 0x00)
  | 0xC05C => (iou, 0x00)
  | 0xC05D => (iou, 0x00)
  | 0xC05E =>
    if ioudis then (iou, 0x00)
    else
      let vm := iou.video_mode ||| VideoModeMask.DHIRES
      ({ iou with video_mode := vm }, vm)
  | 0xC05F =>
    if ioudis then (iou, 0x00)
    else
      let vm := iou.video_mode &&& (0xFF ^^^ VideoModeMask.DHIRES)
      ({ iou with video_mode := vm }, vm)
  | 0xC0EF => (iou, 0x00)
  | _ => (iou, 0x00)

/-- One of the eight banks owned by the MMU: two ROM banks, main/aux RAM and
the four Language Card banks (in the order of `mmu.rs`: MAIN1, MAIN2, AUX1,
AUX2). -/
inductive BankId
  | rom0
  | rom1
  | ram0
  | ram1
  | lc0
  | lc1
  | lc2
  | lc3
deriving DecidableEq, Repr, Fintype

/-- The MMU bank inventory (`mmu.rs`). -/
structure MMU where
  rom0 : Memory
  rom1 : Memory
  ram0 : Memory
  ram1 : Memory
  lc0 : Memory
  lc1 : Memory
  lc2 : Memory
  lc3 : Memory

def RAM_SIZE : Nat := 64 * 1024

def ROM_SIZE : Nat := 16 * 1024

def LCRAM_SIZE : Nat := 4 * 1024

/-- Rust `MMU::new`: two 16 KiB ROM banks, two 64 KiB RAM banks, four 4 KiB LC banks. -/
def MMU.new : MMU :=
  { rom0 := Memory.new ROM_SIZE "ROM1"
    rom1 := Memory.new ROM_SIZE "ROM2"
    ram0 := Memory.new RAM_SIZE "RAMMAIN"
    ram1 := Memory.new RAM_SIZE "RAMAUX"
    lc0 := Memory.new LCRAM_SIZE "LCMAIN1"
    lc1 := Memory.new LCRAM_SIZE "LCMAIN2"
    lc2 := Memory.new LCRAM_SIZE "LCAUX1"
    lc3 := Memory.new LCRAM_SIZE "LCAUX2" }

/-- Select a bank (`self.rom[i]` / `self.ram[i]` / `self.lcram[i]`). -/
def MMU.bank (m : MMU) : BankId → Memory
  | BankId.rom0 => m.rom0
  | BankId.rom1 => m.rom1
  | BankId.ram0 => m.ram0
  | BankId.ram1 => m.ram1
  | BankId.lc0 => m.lc0
  | BankId.lc1 => m.lc1
  | BankId.lc2 => m.lc2
  | BankId.lc3 => m.lc3

/-- Replace one bank (the effect of a `write_byte` on the indexed array). -/
def MMU.setBank (m : MMU) (b : BankId) (mem : Memory) : MMU :=
  match b with
  | BankId.rom0 => { m with rom0 := mem }
  | BankId.rom1 => { m with rom1 := mem }
  | BankId.ram0 => { m with ram0 := mem }
  | BankId.ram1 => { m with ram1 := mem }
  | BankId.lc0 => { m with lc0 := mem }
  | BankId.lc1 => { m with lc1 := mem }
  | BankId.lc2 => { m with lc2 := mem }
  | BankId.lc3 => { m with lc3 := mem }

/-- Rust `self.ram[i]` indexing: index 0 is main RAM, anything else aux. -/
def ramBankId (i : Nat) : BankId := if i = 0 then BankId.ram0 else BankId.ram1

/-- Rust `self.rom[i]` indexing. -/
def romBankId (i : Nat) : BankId := if i = 0 then BankId.rom0 else BankId.rom1

/-- Rust `self.lcram[i]` indexing. -/
def lcBankId (i : Nat) : BankId :=
  if i = 0 then BankId.lc0
  else if i = 1 then BankId.lc1
  else if i = 2 then BankId.lc2
  else BankId.lc3

/-- The sizes the banks have after `MMU::new`. -/
def bankSize : BankId → Nat
  | BankId.rom0 => ROM_SIZE
  | BankId.rom1 => ROM_SIZE
  | BankId.ram0 => RAM_SIZE
  | BankId.ram1 => RAM_SIZE
  | BankId.lc0 => LCRAM_SIZE
  | BankId.lc1 => LCRAM_SIZE
  | BankId.lc2 => LCRAM_SIZE
  | BankId.lc3 => LCRAM_SIZE

/-- Every bank still has its construction-time size (writes preserve this). -/
def MMU.wf (m : MMU) : Prop := ∀ b : BankId, (m.bank b).size = bankSize b

instance (m : MMU) : Decidable m.wf := by
  unfold MMU.wf; infer_instance

/-- Rust `MMU::read_byte`: resolve a non-soft-switch read, driven by the current
memory-state byte, the 80STORE flag and the video PAGE2 bit. -/
def MMU.read_byte (m : MMU) (iou : IOU) (addr : Nat) : Nat :=
  let mem_state := iou.mem_state
  let video_mode := iou.video_mode
  let is_page2 := checkBits video_mode VideoModeMask.PAGE2
  let is_80store := iou.is_80store
  let altzp := (checkBits mem_state MemStateMask.ALTZP).toNat
  let altrom := (checkBits mem_state MemStateMask.ALTROM).toNat
  let lcram := (checkBits mem_state MemStateMask.LCRAM).toNat
  let bank := (checkBits mem_state MemStateMask.RDBNK).toNat
  let ramrd := (checkBits mem_state MemStateMask.RAMRD).toNat
  if addr ≤ 0x01FF then (m.bank (ramBankId altzp)).read_byte addr
  else if ((0x0400 ≤ addr ∧ addr ≤ 0x07FF) ∨ (0x2000 ≤ addr ∧ addr ≤ 0x3FFF))
      ∧ is_80store = true then
    (m.bank (ramBankId is_page2.toNat)).read_byte addr
  else if 0x0200 ≤ addr ∧ addr ≤ 0xBFFF then (m.bank (ramBankId ramrd)).read_byte addr
  else if 0xC100 ≤ addr ∧ addr ≤ 0xCFFF then
    if lcram = 1 then (m.bank (lcBankId (bank + (ramrd <<< 1)))).read_byte (addr - 0xC100)
    else (m.bank (romBankId altrom)).read_byte (addr - 0xC000)
  else if 0xD000 ≤ addr ∧ addr ≤ 0xDFFF then
    if lcram = 1 then (m.bank (lcBankId (bank + (ramrd <<< 1)))).read_byte (addr - 0xD000)
    else (m.bank (romBankId altrom)).read_byte (addr - 0xC000)
  else if 0xE000 ≤ addr ∧ addr ≤ 0xFFFF then
    if lcram = 1 then (m.bank (ramBankId altzp)).read_byte addr
    else (m.bank (romBankId altrom)).read_byte (addr - 0xC000)
  else 0x00

/-- Rust `MMU::write_byte`: resolve a non-soft-switch write.  LC and high-memory
writes with WRITE=0 are dropped (`maybe_write_byte!`); the u8 return value of
the Rust method is 0 on every path and is supplied by the bus. -/
def MMU.write_byte (m : MMU) (addr value mem_state : Nat)
    (is_80store is_page2 : Bool) : Option MMU :=
  let altzp := (checkBits mem_state MemStateMask.ALTZP).toNat
  let bank := (checkBits mem_state MemStateMask.RDBNK).toNat
  let ramwrt := (checkBits mem_state MemStateMask.RAMWRT).toNat
  let write := (checkBits mem_state MemStateMask.WRITE).toNat
  if addr ≤ 0x01FF then
    ((m.bank (ramBankId altzp)).write_byte addr value).map (m.setBank (ramBankId altzp))
  else if ((0x0400 ≤ addr ∧ addr ≤ 0x07FF) ∨ (0x2000 ≤ addr ∧ addr ≤ 0x3FFF))
      ∧ is_80store = true then
    ((m.bank (ramBankId is_page2.toNat)).write_byte addr value).map
      (m.setBank (ramBankId is_page2.toNat))
  else if 0x0200 ≤ addr ∧ addr ≤ 0xBFFF then
    ((m.bank (ramBankId ramwrt)).write_byte addr value).map (m.setBank (ramBankId ramwrt))
  else if 0xC100 ≤ addr ∧ addr ≤ 0xCFFF then
    if write = 1 then
      ((m.bank (lcBankId (bank + (ramwrt <<< 1)))).write_byte (addr - 0xC100) value).map
        (m.setBank (lcBankId (bank + (ramwrt <<< 1))))
    else some m
  else if 0xD000 ≤ addr ∧ addr ≤ 0xDFFF then
    if write = 1 then
      ((m.bank (lcBankId (bank + (ramwrt <<< 1)))).write_byte (addr - 0xD000) value).map
        (m.setBank (lcBankId (bank + (ramwrt <<< 1))))
    else some m
  else if 0xE000 ≤ addr ∧ addr ≤ 0xFFFF then
    if write = 1 then
      ((m.bank (ramBankId altzp)).write_byte addr value).map (m.setBank (ramBankId altzp))
    else some m
  else some m

/-- The bank and offset that `MMU::read_byte` resolves `addr` to — the
projection of the bank selection performed by each arm of the read decoder
(`none` on the unhandled default arm).  This names the claim hypothesis
"the memory-state byte routes a bank for the read". -/
def mmuReadRoute (iou : IOU) (addr : Nat) : Option (BankId × Nat) :=
  let mem_state := iou.mem_state
  let is_page2 := checkBits iou.video_mode VideoModeMask.PAGE2
  let is_80store := iou.is_80store
  let altzp := (checkBits mem_state MemStateMask.ALTZP).toNat
  let altrom := (checkBits mem_state MemStateMask.ALTROM).toNat
  let lcram := (checkBits mem_state MemStateMask.LCRAM).toNat
  let bank := (checkBits mem_state MemStateMask.RDBNK).toNat
  let ramrd := (checkBits mem_state MemStateMask.RAMRD).toNat
  if addr ≤ 0x01FF then some (ramBankId altzp, addr)
  else if ((0x0400 ≤ addr ∧ addr ≤ 0x07FF) ∨ (0x2000 ≤ addr ∧ addr ≤ 0x3FFF))
      ∧ is_80store = true then
    some (ramBankId is_page2.toNat, addr)
  else if 0x0200 ≤ addr ∧ addr ≤ 0xBFFF then some (ramBankId ramrd, addr)
  else if 0xC100 ≤ addr ∧ addr ≤ 0xCFFF then
    if lcram = 1 then some (lcBankId (bank + (ramrd <<< 1)), addr - 0xC100)
    else some (romBankId altrom, addr - 0xC000)
  else if 0xD000 ≤ addr ∧ addr ≤ 0xDFFF then
    if lcram = 1 then some (lcBankId (bank + (ramrd <<< 1)), addr - 0xD000)
    else some (romBankId altrom, addr - 0xC000)
  else if 0xE000 ≤ addr ∧ addr ≤ 0xFFFF then
    if lcram = 1 then some (ramBankId altzp, addr)
    else some (romBankId altrom, addr - 0xC000)
  else none

/-- The bank and offset that `MMU::write_byte` resolves `addr` to — `none`
when the write is dropped (WRITE=0 in the LC/high regions) or hits the
unhandled default arm. -/
def mmuWriteRoute (mem_state : Nat) (is_80store is_page2 : Bool) (addr : Nat) :
    Option (BankId × Nat) :=
  let altzp := (checkBits mem_state MemStateMask.ALTZP).toNat
  let bank := (checkBits mem_state MemStateMask.RDBNK).toNat
  let ramwrt := (checkBits mem_state MemStateMask.RAMWRT).toNat
  let write := (checkBits mem_state MemStateMask.WRITE).toNat
  if addr ≤ 0x01FF then some (ramBankId altzp, addr)
  else if ((0x0400 ≤ addr ∧ addr ≤ 0x07FF) ∨ (0x2000 ≤ addr ∧ addr ≤ 0x3FFF))
      ∧ is_80store = true then
    some (ramBankId is_page2.toNat, addr)
  else if 0x0200 ≤ addr ∧ addr ≤ 0xBFFF then some (ramBankId ramwrt, addr)
  else if 0xC100 ≤ addr ∧ addr ≤ 0xCFFF then
    if write = 1 then some (lcBankId (bank + (ramwrt <<< 1)), addr - 0xC100) else none
  else if 0xD000 ≤ addr ∧ addr ≤ 0xDFFF then
    if write = 1 then some (lcBankId (bank + (ramwrt <<< 1)), addr - 0xD000) else none
  else if 0xE000 ≤ addr ∧ addr ≤ 0xFFFF then
    if write = 1 then some (ramBankId altzp, addr) else none
  else none

/-- The interrupt controller state (`interrupts.rs`). -/
structure InterruptController where
  nmi : Bool
  irq : Bool
  brk : Bool
  reset : Bool
  waiting : Bool
  halted : Bool

/-- Rust `InterruptController::default()`. -/
def InterruptController.new : InterruptController :=
  { nmi := false, irq := false, brk := false, reset := false
    waiting := false, halted := false }

/-- Rust `request_nmi`: sets the NMI flag and leaves the WAI state. -/
def InterruptController.request_nmi (ic : InterruptController) : InterruptController :=
  { ic with nmi := true, waiting := false }

/-- Rust `request_irq`: sets the IRQ flag and leaves the WAI state. -/
def InterruptController.request_irq (ic : InterruptController) : InterruptController :=
  { ic with irq := true, waiting := false }

/-- Rust `request_brk`. -/
def InterruptController.request_brk (ic : InterruptController) : InterruptController :=
  { ic with brk := true }

/-- Rust `enter_wait`. -/
def InterruptController.enter_wait (ic : InterruptController) : InterruptController :=
  { ic with waiting := true }

/-- Rust `enter_halt`. -/
def InterruptController.enter_halt (ic : InterruptController) : InterruptController :=
  { ic with halted := true }

/-- Rust `SystemType` from `cpu.rs`. -/
inductive SystemType
  | Generic
  | AppleIIc
deriving DecidableEq, Repr

/-- Rust `CpuType` from `cpu.rs`. -/
inductive CpuType
  | NMOS6502
  | CMOS65C02
  | WDC65C02S
deriving DecidableEq, Repr

def MEMORY_SIZE : Nat := 64 * 1024

def RAM_BANK_SIZE : Nat := 48 * 1024

/-- The bus (`bus.rs`): IOU, MMU, flat RAM (used by the Generic target), the
interrupt controller and the `$BFFC` feedback latch `i_port`. -/
structure Bus where
  system_type : SystemType
  iou : IOU
  mmu : MMU
  bus_ram : Memory
  interrupts : InterruptController
  i_port : Nat

/-- Rust `Bus::new`. -/
def Bus.new (system_type : SystemType) (_cpu_type : CpuType) : Bus :=
  { system_type := system_type
    iou := IOU.new
    mmu := MMU.new
    bus_ram := Memory.new
      (match system_type with
       | SystemType.Generic => MEMORY_SIZE
       | SystemType.AppleIIc => RAM_BANK_SIZE * 2) "BUSRAM"
    interrupts := InterruptController.new
    i_port := 0 }

/-- Rust `Bus::read_byte`.  On AppleIIc, `$C000`-`$C0FF` goes to the IOU (whose
soft-switch reads mutate it through `Cell`s, hence the returned bus); all
other addresses go to the MMU.  On Generic the flat RAM is read — the
`$BFFC` latch read in the source is commented out. -/
def Bus.read_byte (b : Bus) (addr : Nat) : Bus × Nat :=
  match b.system_type with
  | SystemType.AppleIIc =>
    if 0xC000 ≤ addr ∧ addr ≤ 0xC0FF then
      let r := b.iou.ss_read addr
      ({ b with iou := r.1 }, r.2)
    else (b, b.mmu.read_byte b.iou addr)
  | SystemType.Generic => (b, b.bus_ram.read_byte addr)

/-- Rust `Bus::read_word`: little-endian, the high byte at `addr + 1` wrapping. -/
def Bus.read_word (b : Bus) (addr : Nat) : Bus × Nat :=
  let r1 := b.read_byte addr
  let r2 := r1.1.read_byte (wrapAdd16 addr 1)
  (r2.1, (r2.2 <<< 8) ||| r1.2)

/-- Rust `Bus::write_byte`.  On AppleIIc, `$C000`-`$C0FF` goes to `IOU::ss_write`
(which ignores the value) and everything else to `MMU::write_byte` with
`is_page2` hard-coded `false`; on Generic, `$BFFC` latches `i_port` and
requests IRQ/NMI from bits 0/1, all else is flat RAM. -/
def Bus.write_byte (b : Bus) (addr value : Nat) : Option (Bus × Nat) :=
  match b.system_type with
  | SystemType.AppleIIc =>
    if 0xC000 ≤ addr ∧ addr ≤ 0xC0FF then
      let r := b.iou.ss_write addr
      some ({ b with iou := r.1 }, r.2)
    else
      (b.mmu.write_byte addr value b.iou.mem_state b.iou.is_80store false).map
        (fun m => ({ b with mmu := m }, 0x00))
  | SystemType.Generic =>
    if addr = 0xBFFC then
      let b1 := { b with i_port := value }
      let b2 := if value &&& (1 <<< 0) ≠ 0 then
          { b1 with interrupts := b1.interrupts.request_irq } else b1
      let b3 := if value &&& (1 <<< 1) ≠ 0 then
          { b2 with interrupts := b2.interrupts.request_nmi } else b2
      some (b3, 0x00)
    else
      (b.bus_ram.write_byte addr value).map (fun m => ({ b with bus_ram := m }, 0x00))

/- The processor-status flag bits from cpu.rs. -/
namespace Flags

def CARRY : Nat := 0b00000001
def ZERO : Nat := 0b00000010
def IRQ_DISABLE : Nat := 0b00000100
def DECIMAL : Nat := 0b00001000
def BREAK : Nat := 0b00010000
def UNUSED : Nat := 0b00100000
def OVERFLOW : Nat := 0b01000000
def NEGATIVE : Nat := 0b10000000

end Flags

/-- Rust `bitflags` `contains`: all bits of `flag` set in `p`. -/
def flagGet (p flag : Nat) : Bool := (p &&& flag) == flag

/-- Rust `bitflags` `set`: insert or remove `flag` in `p` according to `b`. -/
def flagSet (p flag : Nat) (b : Bool) : Nat :=
  if b then p ||| flag else p &&& (0xFF ^^^ flag)

/-- The register file (`cpu.rs`). -/
structure Registers where
  a : Nat
  x : Nat
  y : Nat
  sp : Nat

/-- The CPU state (`cpu.rs`); the trace-only fields (symbol table, frame
clock, entry-point override) are omitted. -/
structure CPU where
  system_type : SystemType
  cpu_type : CpuType
  bus : Bus
  regs : Registers
  pc : Nat
  p : Nat

def CPU.setA (cpu : CPU) (v : Nat) : CPU := { cpu with regs := { cpu.regs with a := v } }

def CPU.setX (cpu : CPU) (v : Nat) : CPU := { cpu with regs := { cpu.regs with x := v } }

def CPU.setY (cpu : CPU) (v : Nat) : CPU := { cpu with regs := { cpu.regs with y := v } }

def CPU.setSP (cpu : CPU) (v : Nat) : CPU := { cpu with regs := { cpu.regs with sp := v } }

def CPU.setPC (cpu : CPU) (v : Nat) : CPU := { cpu with pc := v }

def CPU.setP (cpu : CPU) (v : Nat) : CPU := { cpu with p := v }

/-- Plumbing for `self.bus.read_byte(addr)`: thread the (soft-switch mutable)
bus through the CPU. -/
def CPU.bus_read (cpu : CPU) (addr : Nat) : CPU × Nat :=
  let r := cpu.bus.read_byte addr
  ({ cpu with bus := r.1 }, r.2)

/-- Plumbing for `self.bus.read_word(addr)`. -/
def CPU.bus_read_word (cpu : CPU) (addr : Nat) : CPU × Nat :=
  let r := cpu.bus.read_word addr
  ({ cpu with bus := r.1 }, r.2)

/-- Plumbing for `self.bus.write_byte(addr, value)` (`none` = panic). -/
def CPU.bus_write (cpu : CPU) (addr value : Nat) : Option CPU :=
  (cpu.bus.write_byte addr value).map (fun r => { cpu with bus := r.1 })

/-- Rust `CPU::fetch_byte`: read at PC, then advance PC (wrapping). -/
def CPU.fetch_byte (cpu : CPU) : CPU × Nat :=
  let r := cpu.bus_read cpu.pc
  ({ r.1 with pc := wrapAdd16 cpu.pc 1 }, r.2)

/-- Rust `CPU::fetch_word`: two fetches, little-endian. -/
def CPU.fetch_word (cpu : CPU) : CPU × Nat :=
  let r1 := cpu.fetch_byte
  let r2 := r1.1.fetch_byte
  (r2.1, (r2.2 <<< 8) ||| r1.2)

/-- Rust `CPU::fetch_indirect_x`: pointer at `(operand + X) mod 256`, high byte at
the following u16 address (no zero-page wrap in the source). -/
def CPU.fetch_indirect_x (cpu : CPU) : CPU × Nat :=
  let f := cpu.fetch_byte
  let zp_base := wrapAdd8 f.2 cpu.regs.x
  let r1 := f.1.bus_read zp_base
  let r2 := r1.1.bus_read (wrapAdd16 zp_base 1)
  (r2.1, (r2.2 <<< 8) ||| r1.2)

/-- Rust `CPU::fetch_indirect_y`: zero-page pointer whose high byte wraps inside
the zero page (`zp_addr.wrapping_add(1) & 0xFF`), plus Y. -/
def CPU.fetch_indirect_y (cpu : CPU) : CPU × Nat :=
  let f := cpu.fetch_byte
  let zp_addr := f.2
  let r1 := f.1.bus_read zp_addr
  let r2 := r1.1.bus_read (wrapAdd16 zp_addr 1 &&& 0xFF)
  let base_addr := (r2.2 <<< 8) ||| r1.2
  (r2.1, wrapAdd16 base_addr cpu.regs.y)

/-- Rust `CPU::push_stack`. -/
def CPU.push_stack (cpu : CPU) (value : Nat) : Option CPU :=
  (cpu.bus_write (0x0100 ||| cpu.regs.sp) value).map
    (fun c => c.setSP (wrapSub8 cpu.regs.sp 1))

/-- Rust `CPU::pop_stack`. -/
def CPU.pop_stack (cpu : CPU) : CPU × Nat :=
  let sp1 := wrapAdd8 cpu.regs.sp 1
  let r := cpu.bus_read (0x0100 ||| sp1)
  ((r.1.setSP sp1), r.2)

/-- Rust `CPU::update_zero_and_negative_flags`. -/
def CPU.update_zero_and_negative_flags (cpu : CPU) (value : Nat) : CPU :=
  cpu.setP (flagSet (flagSet cpu.p Flags.ZERO (value == 0))
    Flags.NEGATIVE ((value &&& 0b10000000) != 0))

/-- Rust `CPU::execute_bit` (the BIT instruction's flag updates). -/
def CPU.execute_bit (cpu : CPU) (value : Nat) : CPU :=
  cpu.setP (flagSet (flagSet (flagSet cpu.p
    Flags.ZERO ((cpu.regs.a &&& value) == 0))
    Flags.NEGATIVE ((value &&& 0x80) != 0))
    Flags.OVERFLOW ((value &&& 0x40) != 0))

/-- Rust `CPU::adc`: binary add with carry, or nibble-wise BCD when D is set. -/
def CPU.adc (cpu : CPU) (value : Nat) : CPU :=
  let carry_in := if flagGet cpu.p Flags.CARRY then 1 else 0
  let a_before := cpu.regs.a
  let sum_16 := a_before + value + carry_in
  let a_bin := sum_16 % 256
  let carry_bin := decide (sum_16 > 0xFF)
  let lowA := (a_before &&& 0x0F) + (value &&& 0x0F) + carry_in
  let highA := (a_before >>> 4) + (value >>> 4)
  let lowB := if lowA > 9 then lowA - 10 else lowA
  let highB := if lowA > 9 then highA + 1 else highA
  let highC := if highB > 9 then highB - 10 else highB
  let carry_dec := if highB > 9 then true else carry_bin
  let a_dec := ((highC <<< 4) &&& 0xFF) ||| (lowB &&& 0x0F)
  let dec := flagGet cpu.p Flags.DECIMAL
  let a_after := if dec then a_dec else a_bin
  let carry_out := if dec then carry_dec else carry_bin
  let overflow := (((a_before ^^^ value) &&& 0x80) == 0)
    && (((a_before ^^^ a_after) &&& 0x80) != 0)
  let c1 := cpu.setA a_after
  c1.setP (flagSet (flagSet (flagSet (flagSet c1.p
    Flags.CARRY carry_out)
    Flags.OVERFLOW overflow)
    Flags.ZERO (a_after == 0))
    Flags.NEGATIVE ((a_after &&& 0x80) != 0))

/-- Rust `CPU::sbc`: binary subtract via complement add, or nibble-wise BCD. -/
def CPU.sbc (cpu : CPU) (value : Nat) : CPU :=
  let carry_in := if flagGet cpu.p Flags.CARRY then 1 else 0
  let a_before := cpu.regs.a
  let value_complement := value ^^^ 0xFF
  let binary_result := a_before + value_complement + carry_in
  let temp_bin := binary_result % 256
  let borrow_bin := decide (binary_result < 0x100)
  let lowA := ((a_before &&& 0x0F) + 512 - (value &&& 0x0F) - (1 - carry_in)) % 256
  let highA := ((a_before >>> 4) + 256 - (value >>> 4)) % 256
  let lowWrap := (lowA &&& 0x10) != 0
  let lowB := if lowWrap then ((lowA + 256 - 6) % 256) &&& 0x0F else lowA
  let highB' := if lowWrap then (highA + 255) % 256 else highA
  let highC := if highB' > 9 then ((highB' + 256 - 6) % 256) &&& 0x0F else highB'
  let borrow_dec := if highB' > 9 then true else borrow_bin
  let temp_dec := ((highC <<< 4) &&& 0xFF) ||| (lowB &&& 0x0F)
  let dec := flagGet cpu.p Flags.DECIMAL
  let temp_result := if dec then temp_dec else temp_bin
  let did_borrow := if dec then borrow_dec else borrow_bin
  let carry_set := !did_borrow
  let overflow := (((a_before ^^^ value) &&& 0x80) != 0)
    && (((a_before ^^^ temp_result) &&& 0x80) != 0)
  let c1 := cpu.setA temp_result
  c1.setP (flagSet (flagSet (flagSet (flagSet c1.p
    Flags.CARRY carry_set)
    Flags.OVERFLOW overflow)
    Flags.ZERO (temp_result == 0))
    Flags.NEGATIVE ((temp_result &&& 0x80) != 0))

/-- Rust `CPU::asl`: carry from bit 7, result shifted left. -/
def CPU.asl (cpu : CPU) (value : Nat) : CPU × Nat :=
  let c1 := cpu.setP (flagSet cpu.p Flags.CARRY ((value &&& 0b10000000) != 0))
  let result := (value <<< 1) % 256
  (c1.update_zero_and_negative_flags result, result)

/-- Rust `CPU::lsr`. -/
def CPU.lsr (cpu : CPU) (value : Nat) : CPU × Nat :=
  let c1 := cpu.setP (flagSet cpu.p Flags.CARRY ((value &&& 0b00000001) != 0))
  let result := value >>> 1
  (c1.update_zero_and_negative_flags result, result)

/-- Rust `CPU::rol`. -/
def CPU.rol (cpu : CPU) (value : Nat) : CPU × Nat :=
  let carry_in := if flagGet cpu.p Flags.CARRY then 1 else 0
  let c1 := cpu.setP (flagSet cpu.p Flags.CARRY ((value &&& 0b10000000) != 0))
  let result := ((value <<< 1) % 256) ||| carry_in
  (c1.update_zero_and_negative_flags result, result)

/-- Rust `CPU::ror`. -/
def CPU.ror (cpu : CPU) (value : Nat) : CPU × Nat :=
  let carry_in := if flagGet cpu.p Flags.CARRY then 0b10000000 else 0
  let c1 := cpu.setP (flagSet cpu.p Flags.CARRY ((value &&& 0b00000001) != 0))
  let result := (value >>> 1) ||| carry_in
  (c1.update_zero_and_negative_flags result, result)

/-- Rust `CPU::compare` (CMP/CPX/CPY). -/
def CPU.compare (cpu : CPU) (reg value : Nat) : CPU :=
  let result := wrapSub8 reg value
  cpu.setP (flagSet (flagSet (flagSet cpu.p
    Flags.CARRY (decide (reg ≥ value)))
    Flags.ZERO (result == 0))
    Flags.NEGATIVE ((result &&& 0x80) != 0))

set_option maxHeartbeats 3200000 in
/-- Rust `CPU::decode_execute`: dispatch one opcode (PC already points past the
opcode byte).  The Rust match is exhaustive over `u8`; the final Lean arm is
unreachable for opcodes below 256.  `none` models a panicking bus write. -/
def CPU.decode_execute (cpu : CPU) (opcode : Nat) : Option CPU :=
  match opcode with
  | 0xA9 =>
    let f := cpu.fetch_byte
    some ((f.1.setA f.2).update_zero_and_negative_flags f.2)
  | 0xA5 =>
    let f := cpu.fetch_byte
    let r := f.1.bus_read f.2
    some ((r.1.setA r.2).update_zero_and_negative_flags r.2)
  | 0xAD =>
    let f := cpu.fetch_word
    let r := f.1.bus_read f.2
    some ((r.1.setA r.2).update_zero_and_negative_flags r.2)
  | 0xA2 =>
    let f := cpu.fetch_byte
    some ((f.1.setX f.2).update_zero_and_negative_flags f.2)
  | 0xA6 =>
    let f := cpu.fetch_byte
    let r := f.1.bus_read f.2
    some ((r.1.setX r.2).update_zero_and_negative_flags r.2)
  | 0xAE =>
    let f := cpu.fetch_word
    let r := f.1.bus_read f.2
    some ((r.1.setX r.2).update_zero_and_negative_flags r.2)
  | 0xA0 =>
    let f := cpu.fetch_byte
    some ((f.1.setY f.2).update_zero_and_negative_flags f.2)
  | 0xA4 =>
    let f := cpu.fetch_byte
    let r := f.1.bus_read f.2
    some ((r.1.setY r.2).update_zero_and_negative_flags r.2)
  | 0xAC =>
    let f := cpu.fetch_word
    let r := f.1.bus_read f.2
    some ((r.1.setY r.2).update_zero_and_negative_flags r.2)
  | 0x85 =>
    let f := cpu.fetch_byte
    f.1.bus_write f.2 f.1.regs.a
  | 0x8D =>
    let f := cpu.fetch_word
    f.1.bus_write f.2 f.1.regs.a
  | 0x86 =>
    let f := cpu.fetch_byte
    f.1.bus_write f.2 f.1.regs.x
  | 0x8E =>
    let f := cpu.fetch_word
    f.1.bus_write f.2 f.1.regs.x
  | 0x84 =>
    let f := cpu.fetch_byte
    f.1.bus_write f.2 f.1.regs.y
  | 0x8C =>
    let f := cpu.fetch_word
    f.1.bus_write f.2 f.1.regs.y
  | 0x29 =>
    let f := cpu.fetch_byte
    let a := f.1.regs.a &&& f.2
    some ((f.1.setA a).update_zero_and_negative_flags a)
  | 0x25 =>
    let f := cpu.fetch_byte
    let r := f.1.bus_read f.2
    let a := r.1.regs.a &&& r.2
    some ((r.1.setA a).update_zero_and_negative_flags a)
  | 0x2D =>
    let f := cpu.fetch_word
    let r := f.1.bus_read f.2
    let a := r.1.regs.a &&& r.2
    some ((r.1.setA a).update_zero_and_negative_flags a)
  | 0x49 =>
    let f := cpu.fetch_byte
    let a := f.1.regs.a ^^^ f.2
    some ((f.1.setA a).update_zero_and_negative_flags a)
  | 0x45 =>
    let f := cpu.fetch_byte
    let r := f.1.bus_read f.2
    let a := r.1.regs.a ^^^ r.2
    some ((r.1.setA a).update_zero_and_negative_flags a)
  | 0x4D =>
    let f := cpu.fetch_word
    let r := f.1.bus_read f.2
    let a := r.1.regs.a ^^^ r.2
    some ((r.1.setA a).update_zero_and_negative_flags a)
  | 0x08 =>
    cpu.push_stack ((cpu.p ||| Flags.UNUSED) ||| Flags.BREAK)
  | 0x05 =>
    let f := cpu.fetch_byte
    let r := f.1.bus_read f.2
    let a := r.1.regs.a ||| r.2
    some ((r.1.setA a).update_zero_and_negative_flags a)
  | 0x0D =>
    let f := cpu.fetch_word
    let r := f.1.bus_read f.2
    let a := r.1.regs.a ||| r.2
    some ((r.1.setA a).update_zero_and_negative_flags a)
  | 0x24 =>
    let f := cpu.fetch_byte
    let r := f.1.bus_read f.2
    some (r.1.execute_bit r.2)
  | 0x2C =>
    let f := cpu.fetch_word
    let r := f.1.bus_read f.2
    some (r.1.execute_bit r.2)
  | 0x34 =>
    let f := cpu.fetch_byte
    let r := f.1.bus_read (wrapAdd8 f.2 cpu.regs.x)
    some (r.1.execute_bit r.2)
  | 0x3C =>
    let f := cpu.fetch_word
    let r := f.1.bus_read (wrapAdd16 f.2 cpu.regs.x)
    some (r.1.execute_bit r.2)
  | 0x69 =>
    let f := cpu.fetch_byte
    some (f.1.adc f.2)
  | 0x65 =>
    let f := cpu.fetch_byte
    let r := f.1.bus_read f.2
    some (r.1.adc r.2)
  | 0x6D =>
    let f := cpu.fetch_word
    let r := f.1.bus_read f.2
    some (r.1.adc r.2)
  | 0xE9 =>
    let f := cpu.fetch_byte
    some (f.1.sbc f.2)
  | 0xE5 =>
    let f := cpu.fetch_byte
    let r := f.1.bus_read f.2
    some (r.1.sbc r.2)
  | 0xED =>
    let f := cpu.fetch_word
    let r := f.1.bus_read f.2
    some (r.1.sbc r.2)
  | 0xC9 =>
    let f := cpu.fetch_byte
    some (f.1.compare f.1.regs.a f.2)
  | 0xC5 =>
    let f := cpu.fetch_byte
    let r := f.1.bus_read f.2
    some (r.1.compare r.1.regs.a r.2)
  | 0xCD =>
    let f := cpu.fetch_word
    let r := f.1.bus_read f.2
    some (r.1.compare r.1.regs.a r.2)
  | 0xE0 =>
    let f := cpu.fetch_byte
    some (f.1.compare f.1.regs.x f.2)
  | 0xE4 =>
    let f := cpu.fetch_byte
    let r := f.1.bus_read f.2
    some (r.1.compare r.1.regs.x r.2)
  | 0xEC =>
    let f := cpu.fetch_word
    let r := f.1.bus_read f.2
    some (r.1.compare r.1.regs.x r.2)
  | 0xC0 =>
    let f := cpu.fetch_byte
    let value := f.2
    let result := wrapSub8 f.1.regs.y value
    some (f.1.setP (flagSet (flagSet (flagSet f.1.p
      Flags.ZERO (f.1.regs.y == value))
      Flags.NEGATIVE ((result &&& 0x80) != 0))
      Flags.CARRY (decide (f.1.regs.y ≥ value))))
  | 0xC4 =>
    let f := cpu.fetch_byte
    let r := f.1.bus_read f.2
    some (r.1.compare r.1.regs.y r.2)
  | 0xCC =>
    let f := cpu.fetch_word
    let r := f.1.bus_read f.2
    some (r.1.compare r.1.regs.y r.2)
  | 0x0A =>
    let r := cpu.asl cpu.regs.a
    some (r.1.setA r.2)
  | 0x06 =>
    let f := cpu.fetch_byte
    let r := f.1.bus_read f.2
    let s := r.1.asl r.2
    s.1.bus_write f.2 s.2
  | 0x0E =>
    let f := cpu.fetch_word
    let r := f.1.bus_read f.2
    let s := r.1.asl r.2
    s.1.bus_write f.2 s.2
  | 0x4A =>
    let r := cpu.lsr cpu.regs.a
    some (r.1.setA r.2)
  | 0x46 =>
    let f := cpu.fetch_byte
    let r := f.1.bus_read f.2
    let s := r.1.lsr r.2
    s.1.bus_write f.2 s.2
  | 0x4E =>
    let f := cpu.fetch_word
    let r := f.1.bus_read f.2
    let s := r.1.lsr r.2
    s.1.bus_write f.2 s.2
  | 0x2A =>
    let r := cpu.rol cpu.regs.a
    some (r.1.setA r.2)
  | 0x26 =>
    let f := cpu.fetch_byte
    let r := f.1.bus_read f.2
    let s := r.1.rol r.2
    s.1.bus_write f.2 s.2
  | 0x2E =>
    let f := cpu.fetch_word
    let r := f.1.bus_read f.2
    let s := r.1.rol r.2
    s.1.bus_write f.2 s.2
  | 0x6A =>
    let r := cpu.ror cpu.regs.a
    some (r.1.setA r.2)
  | 0x66 =>
    let f := cpu.fetch_byte
    let r := f.1.bus_read f.2
    let s := r.1.ror r.2
    s.1.bus_write f.2 s.2
  | 0x6E =>
    let f := cpu.fetch_word
    let r := f.1.bus_read f.2
    let s := r.1.ror r.2
    s.1.bus_write f.2 s.2
  | 0x4C =>
    let f := cpu.fetch_word
    some (f.1.setPC f.2)
  | 0x6C =>
    let f := cpu.fetch_word
    let addr := f.2
    let r1 := f.1.bus_read addr
    let hi_addr :=
      if cpu.cpu_type = CpuType.NMOS6502 ∧ addr &&& 0x00FF = 0xFF then addr &&& 0xFF00
      else wrapAdd16 addr 1
    let r2 := r1.1.bus_read hi_addr
    some (r2.1.setPC ((r2.2 <<< 8) ||| r1.2))
  | 0x20 =>
    let f := cpu.fetch_word
    let addr := f.2
    let c1 := f.1.setPC (wrapSub16 f.1.pc 1)
    (c1.push_stack (c1.pc >>> 8)).bind (fun c2 =>
      (c2.push_stack (c2.pc &&& 0xFF)).map (fun c3 => c3.setPC addr))
  | 0x60 =>
    let r1 := cpu.pop_stack
    let r2 := r1.1.pop_stack
    let return_addr := (r2.2 <<< 8) ||| r1.2
    some (r2.1.setPC (wrapAdd16 return_addr 1))
  | 0x40 =>
    let r1 := cpu.pop_stack
    let restored_p := ((r1.2 &&& 0xFF) ||| Flags.UNUSED) &&& (0xFF ^^^ Flags.BREAK)
    let c1 := r1.1.setP restored_p
    let r2 := c1.pop_stack
    let r3 := r2.1.pop_stack
    some (r3.1.setPC ((r3.2 <<< 8) ||| r2.2))
  | 0x80 =>
    let f := cpu.fetch_byte
    some (f.1.setPC (branchTarget f.1.pc f.2))
  | 0x9C =>
    let f := cpu.fetch_word
    f.1.bus_write f.2 0x00
  | 0x9E =>
    let f := cpu.fetch_word
    f.1.bus_write (wrapAdd16 f.2 cpu.regs.x) 0x00
  | 0x64 =>
    let f := cpu.fetch_byte
    f.1.bus_write f.2 0x00
  | 0x74 =>
    let f := cpu.fetch_byte
    f.1.bus_write ((f.2 + cpu.regs.x) &&& 0xFF) 0x00
  | 0x1C =>
    let f := cpu.fetch_word
    let r := f.1.bus_read f.2
    let c1 := r.1.setP (flagSet r.1.p Flags.ZERO ((r.2 &&& r.1.regs.a) == 0))
    c1.bus_write f.2 (r.2 &&& (c1.regs.a ^^^ 0xFF))
  | 0x14 =>
    let f := cpu.fetch_byte
    let r := f.1.bus_read f.2
    let c1 := r.1.setP (flagSet r.1.p Flags.ZERO ((r.2 &&& r.1.regs.a) == 0))
    c1.bus_write f.2 (r.2 &&& (c1.regs.a ^^^ 0xFF))
  | 0x0C =>
    let f := cpu.fetch_word
    let r := f.1.bus_read f.2
    let c1 := r.1.setP (flagSet r.1.p Flags.ZERO ((r.2 &&& r.1.regs.a) == 0))
    c1.bus_write f.2 (r.2 ||| c1.regs.a)
  | 0x04 =>
    let f := cpu.fetch_byte
    let r := f.1.bus_read f.2
    let c1 := r.1.setP (flagSet r.1.p Flags.ZERO ((r.2 &&& r.1.regs.a) == 0))
    c1.bus_write f.2 (r.2 ||| c1.regs.a)
  | 0xDA =>
    cpu.push_stack cpu.regs.x
  | 0xFA =>
    let r := cpu.pop_stack
    let c1 := r.1.setX r.2
    if c1.cpu_type = CpuType.CMOS65C02 ∨ c1.cpu_type = CpuType.WDC65C02S then
      some (c1.update_zero_and_negative_flags c1.regs.x)
    else some c1
  | 0x5A =>
    cpu.push_stack cpu.regs.y
  | 0x7A =>
    let r := cpu.pop_stack
    let c1 := r.1.setY r.2
    if c1.cpu_type = CpuType.CMOS65C02 ∨ c1.cpu_type = CpuType.WDC65C02S then
      some (c1.update_zero_and_negative_flags c1.regs.y)
    else some c1
  | 0x89 =>
    let f := cpu.fetch_byte
    some (f.1.setP (flagSet f.1.p Flags.ZERO ((f.1.regs.a &&& f.2) == 0)))
  | 0xCB =>
    if cpu.cpu_type = CpuType.WDC65C02S then
      some { cpu with bus := { cpu.bus with interrupts := cpu.bus.interrupts.enter_wait } }
    else some cpu
  | 0xDB =>
    if cpu.cpu_type = CpuType.WDC65C02S then
      some { cpu with bus := { cpu.bus with interrupts := cpu.bus.interrupts.enter_halt } }
    else some cpu
  | 0xD8 =>
    some (cpu.setP (cpu.p &&& (0xFF ^^^ Flags.DECIMAL)))
  | 0xF8 =>
    some (cpu.setP (cpu.p ||| Flags.DECIMAL))
  | 0x00 =>
    some { cpu with bus := { cpu.bus with interrupts := cpu.bus.interrupts.request_brk } }
  | 0xEA =>
    some cpu
  | 0x10 =>
    let f := cpu.fetch_byte
    if !(flagGet f.1.p Flags.NEGATIVE) then some (f.1.setPC (branchTarget f.1.pc f.2))
    else some f.1
  | 0x48 =>
    cpu.push_stack cpu.regs.a
  | 0x30 =>
    let f := cpu.fetch_byte
    if flagGet f.1.p Flags.NEGATIVE then some (f.1.setPC (branchTarget f.1.pc f.2))
    else some f.1
  | 0xBC =>
    let f := cpu.fetch_word
    let r := f.1.bus_read (wrapAdd16 f.2 cpu.regs.x)
    some ((r.1.setY r.2).update_zero_and_negative_flags r.2)
  | 0xF0 =>
    let f := cpu.fetch_byte
    if flagGet f.1.p Flags.ZERO then some (f.1.setPC (branchTarget f.1.pc f.2))
    else some f.1
  | 0x38 =>
    some (cpu.setP (cpu.p ||| Flags.CARRY))
  | 0x68 =>
    let r := cpu.pop_stack
    some ((r.1.setA r.2).update_zero_and_negative_flags r.2)
  | 0xFE =>
    let f := cpu.fetch_word
    let addr := wrapAdd16 f.2 cpu.regs.x
    let r := f.1.bus_read addr
    let value := wrapAdd8 r.2 1
    (r.1.bus_write addr value).map (fun c => c.update_zero_and_negative_flags value)
  | 0x88 =>
    let y := wrapSub8 cpu.regs.y 1
    some ((cpu.setY y).update_zero_and_negative_flags y)
  | 0x9A =>
    some (cpu.setSP cpu.regs.x)
  | 0xD0 =>
    let f := cpu.fetch_byte
    if !(flagGet f.1.p Flags.ZERO) then some (f.1.setPC (branchTarget f.1.pc f.2))
    else some f.1
  | 0xCA =>
    let x := wrapSub8 cpu.regs.x 1
    some ((cpu.setX x).update_zero_and_negative_flags x)
  | 0x98 =>
    some ((cpu.setA cpu.regs.y).update_zero_and_negative_flags cpu.regs.y)
  | 0xAA =>
    some ((cpu.setX cpu.regs.a).update_zero_and_negative_flags cpu.regs.a)
  | 0x18 =>
    some (cpu.setP (cpu.p &&& (0xFF ^^^ Flags.CARRY)))
  | 0x90 =>
    let f := cpu.fetch_byte
    if !(flagGet f.1.p Flags.CARRY) then some (f.1.setPC (branchTarget f.1.pc f.2))
    else some f.1
  | 0xB0 =>
    let f := cpu.fetch_byte
    if flagGet f.1.p Flags.CARRY then some (f.1.setPC (branchTarget f.1.pc f.2))
    else some f.1
  | 0xA8 =>
    some ((cpu.setY cpu.regs.a).update_zero_and_negative_flags cpu.regs.a)
  | 0xBA =>
    some ((cpu.setX cpu.regs.sp).update_zero_and_negative_flags cpu.regs.sp)
  | 0x8A =>
    some ((cpu.setA cpu.regs.x).update_zero_and_negative_flags cpu.regs.x)
  | 0x28 =>
    let r := cpu.pop_stack
    let restored_p := ((r.2 &&& 0xFF) ||| Flags.UNUSED) &&& (0xFF ^^^ Flags.BREAK)
    some (r.1.setP restored_p)
  | 0x50 =>
    let f := cpu.fetch_byte
    if !(flagGet f.1.p Flags.OVERFLOW) then some (f.1.setPC (branchTarget f.1.pc f.2))
    else some f.1
  | 0x70 =>
    let f := cpu.fetch_byte
    if flagGet f.1.p Flags.OVERFLOW then some (f.1.setPC (branchTarget f.1.pc f.2))
    else some f.1
  | 0xE8 =>
    let x := wrapAdd8 cpu.regs.x 1
    some ((cpu.setX x).update_zero_and_negative_flags x)
  | 0xC8 =>
    let y := wrapAdd8 cpu.regs.y 1
    some ((cpu.setY y).update_zero_and_negative_flags y)
  | 0xBD =>
    let f := cpu.fetch_word
    let r := f.1.bus_read (wrapAdd16 f.2 cpu.regs.x)
    some ((r.1.setA r.2).update_zero_and_negative_flags r.2)
  | 0x58 =>
    some (cpu.setP (cpu.p &&& (0xFF ^^^ Flags.IRQ_DISABLE)))
  | 0x78 =>
    some (cpu.setP (cpu.p ||| Flags.IRQ_DISABLE))
  | 0xB8 =>
    some (cpu.setP (cpu.p &&& (0xFF ^^^ Flags.OVERFLOW)))
  | 0xB6 =>
    let f := cpu.fetch_byte
    let r := f.1.bus_read ((wrapAdd16 f.2 cpu.regs.y) &&& 0x00FF)
    some ((r.1.setX r.2).update_zero_and_negative_flags r.2)
  | 0x99 =>
    let f := cpu.fetch_word
    let base_addr := f.2
    let addr0 := wrapAdd16 base_addr cpu.regs.y
    let addr := if base_addr < 0x100 then addr0 &&& 0xFF else addr0
    f.1.bus_write addr cpu.regs.a
  | 0xD9 =>
    let f := cpu.fetch_word
    let r := f.1.bus_read (wrapAdd16 f.2 cpu.regs.y)
    some (r.1.compare r.1.regs.a r.2)
  | 0xBE =>
    let f := cpu.fetch_word
    let r := f.1.bus_read (wrapAdd16 f.2 cpu.regs.y)
    some ((r.1.setX r.2).update_zero_and_negative_flags r.2)
  | 0x96 =>
    let f := cpu.fetch_byte
    f.1.bus_write ((wrapAdd16 f.2 cpu.regs.y) &&& 0x00FF) cpu.regs.x
  | 0xB9 =>
    let f := cpu.fetch_word
    let r := f.1.bus_read (wrapAdd16 f.2 cpu.regs.y)
    some ((r.1.setA r.2).update_zero_and_negative_flags r.2)
  | 0xB4 =>
    let f := cpu.fetch_byte
    let r := f.1.bus_read (wrapAdd8 f.2 cpu.regs.x)
    some ((r.1.setY r.2).update_zero_and_negative_flags r.2)
  | 0x9D =>
    let f := cpu.fetch_word
    f.1.bus_write (wrapAdd16 f.2 cpu.regs.x) cpu.regs.a
  | 0xDD =>
    let f := cpu.fetch_word
    let r := f.1.bus_read (wrapAdd16 f.2 cpu.regs.x)
    some (r.1.compare r.1.regs.a r.2)
  | 0x94 =>
    let f := cpu.fetch_byte
    f.1.bus_write (wrapAdd8 f.2 cpu.regs.x) cpu.regs.y
  | 0xD5 =>
    let f := cpu.fetch_byte
    let r := f.1.bus_read ((wrapAdd8 f.2 cpu.regs.x) &&& 0x00FF)
    some (r.1.compare r.1.regs.a r.2)
  | 0xB5 =>
    let f := cpu.fetch_byte
    let r := f.1.bus_read ((wrapAdd8 f.2 cpu.regs.x) &&& 0x00FF)
    some ((r.1.setA r.2).update_zero_and_negative_flags r.2)
  | 0xC1 =>
    let f := cpu.fetch_byte
    let w := f.1.bus_read_word (wrapAdd8 f.2 cpu.regs.x)
    let r := w.1.bus_read w.2
    some (r.1.compare r.1.regs.a r.2)
  | 0xD1 =>
    let f := cpu.fetch_byte
    let w := f.1.bus_read_word f.2
    let r := w.1.bus_read (wrapAdd16 w.2 cpu.regs.y)
    some (r.1.compare r.1.regs.a r.2)
  | 0x95 =>
    let f := cpu.fetch_byte
    f.1.bus_write ((wrapAdd16 f.2 cpu.regs.x) &&& 0x00FF) f.1.regs.a
  | 0xB1 =>
    let f := cpu.fetch_byte
    let w := f.1.bus_read_word (f.2 &&& 0xFF)
    let r := w.1.bus_read (wrapAdd16 w.2 cpu.regs.y)
    some ((r.1.setA r.2).update_zero_and_negative_flags r.2)
  | 0x91 =>
    let f := cpu.fetch_byte
    let w := f.1.bus_read_word (f.2 &&& 0xFF)
    w.1.bus_write (wrapAdd16 w.2 cpu.regs.y) w.1.regs.a
  | 0xA1 =>
    let f := cpu.fetch_byte
    let w := f.1.bus_read_word ((wrapAdd8 f.2 cpu.regs.x) &&& 0xFF)
    let r := w.1.bus_read w.2
    some ((r.1.setA r.2).update_zero_and_negative_flags r.2)
  | 0x81 =>
    let f := cpu.fetch_byte
    let w := f.1.bus_read_word ((wrapAdd8 f.2 cpu.regs.x) &&& 0xFF)
    w.1.bus_write w.2 w.1.regs.a
  | 0x16 =>
    let f := cpu.fetch_byte
    let addr := wrapAdd8 f.2 cpu.regs.x
    let r := f.1.bus_read addr
    let carry := (r.2 &&& 0x80) != 0
    let value := (r.2 <<< 1) % 256
    (r.1.bus_write addr value).map (fun c =>
      (c.setP (flagSet c.p Flags.CARRY carry)).update_zero_and_negative_flags value)
  | 0x56 =>
    let f := cpu.fetch_byte
    let addr := wrapAdd8 f.2 cpu.regs.x
    let r := f.1.bus_read addr
    let carry := (r.2 &&& 0x01) != 0
    let value := r.2 >>> 1
    (r.1.bus_write addr value).map (fun c =>
      (c.setP (flagSet c.p Flags.CARRY carry)).update_zero_and_negative_flags value)
  | 0x36 =>
    let f := cpu.fetch_byte
    let addr := wrapAdd8 f.2 cpu.regs.x
    let r := f.1.bus_read addr
    let old_carry := flagGet r.1.p Flags.CARRY
    let new_carry := (r.2 &&& 0x80) != 0
    let value := ((r.2 <<< 1) % 256) ||| (if old_carry then 1 else 0)
    (r.1.bus_write addr value).map (fun c =>
      (c.setP (flagSet c.p Flags.CARRY new_carry)).update_zero_and_negative_flags value)
  | 0x76 =>
    let f := cpu.fetch_byte
    let addr := wrapAdd8 f.2 cpu.regs.x
    let r := f.1.bus_read addr
    let old_carry := flagGet r.1.p Flags.CARRY
    let new_carry := (r.2 &&& 0x01) != 0
    let value := (r.2 >>> 1) ||| (if old_carry then 0x80 else 0)
    (r.1.bus_write addr value).map (fun c =>
      (c.setP (flagSet c.p Flags.CARRY new_carry)).update_zero_and_negative_flags value)
  | 0x1E =>
    let f := cpu.fetch_word
    let addr := wrapAdd16 f.2 cpu.regs.x
    let r := f.1.bus_read addr
    let new_carry := (r.2 &&& 0x80) != 0
    let value := (r.2 <<< 1) % 256
    (r.1.bus_write addr value).map (fun c =>
      (c.setP (flagSet c.p Flags.CARRY new_carry)).update_zero_and_negative_flags value)
  | 0x5E =>
    let f := cpu.fetch_word
    let addr := wrapAdd16 f.2 cpu.regs.x
    let r := f.1.bus_read addr
    let new_carry := (r.2 &&& 0x01) != 0
    let value := r.2 >>> 1
    (r.1.bus_write addr value).map (fun c =>
      (c.setP (flagSet c.p Flags.CARRY new_carry)).update_zero_and_negative_flags value)
  | 0x3E =>
    let f := cpu.fetch_word
    let addr := wrapAdd16 f.2 cpu.regs.x
    let r := f.1.bus_read addr
    let new_carry := (r.2 &&& 0x80) != 0
    let value := ((r.2 <<< 1) % 256) ||| (if flagGet r.1.p Flags.CARRY then 1 else 0)
    (r.1.bus_write addr value).map (fun c =>
      (c.setP (flagSet c.p Flags.CARRY new_carry)).update_zero_and_negative_flags value)
  | 0x7E =>
    let f := cpu.fetch_word
    let addr := wrapAdd16 f.2 cpu.regs.x
    let r := f.1.bus_read addr
    let new_carry := (r.2 &&& 0x01) != 0
    let value := (r.2 >>> 1) ||| ((if flagGet r.1.p Flags.CARRY then 1 else 0) <<< 7)
    (r.1.bus_write addr value).map (fun c =>
      (c.setP (flagSet c.p Flags.CARRY new_carry)).update_zero_and_negative_flags value)
  | 0xE6 =>
    let f := cpu.fetch_byte
    let r := f.1.bus_read f.2
    let value := wrapAdd8 r.2 1
    (r.1.bus_write f.2 value).map (fun c => c.update_zero_and_negative_flags value)
  | 0xC6 =>
    let f := cpu.fetch_byte
    let r := f.1.bus_read f.2
    let value := wrapSub8 r.2 1
    (r.1.bus_write f.2 value).map (fun c => c.update_zero_and_negative_flags value)
  | 0xEE =>
    let f := cpu.fetch_word
    let r := f.1.bus_read f.2
    let value := wrapAdd8 r.2 1
    (r.1.bus_write f.2 value).map (fun c => c.update_zero_and_negative_flags value)
  | 0xCE =>
    let f := cpu.fetch_word
    let r := f.1.bus_read f.2
    let value := wrapSub8 r.2 1
    (r.1.bus_write f.2 value).map (fun c => c.update_zero_and_negative_flags value)
  | 0xF6 =>
    let f := cpu.fetch_byte
    let addr := wrapAdd8 f.2 cpu.regs.x
    let r := f.1.bus_read addr
    let value := wrapAdd8 r.2 1
    (r.1.bus_write addr value).map (fun c => c.update_zero_and_negative_flags value)
  | 0x09 =>
    let f := cpu.fetch_byte
    let a := f.1.regs.a ||| f.2
    some ((f.1.setA a).update_zero_and_negative_flags a)
  | 0xD6 =>
    let f := cpu.fetch_byte
    let addr := wrapAdd8 f.2 cpu.regs.x
    let r := f.1.bus_read addr
    let value := wrapSub8 r.2 1
    (r.1.bus_write addr value).map (fun c => c.update_zero_and_negative_flags value)
  | 0xDE =>
    let f := cpu.fetch_word
    let addr := wrapAdd16 f.2 cpu.regs.x
    let r := f.1.bus_read addr
    let value := wrapSub8 r.2 1
    (r.1.bus_write addr value).map (fun c => c.update_zero_and_negative_flags value)
  | 0x35 =>
    let f := cpu.fetch_byte
    let r := f.1.bus_read (wrapAdd8 f.2 cpu.regs.x)
    let a := r.1.regs.a &&& r.2
    some ((r.1.setA a).update_zero_and_negative_flags a)
  | 0x3D =>
    let f := cpu.fetch_word
    let r := f.1.bus_read (wrapAdd16 f.2 cpu.regs.x)
    let a := r.1.regs.a &&& r.2
    some ((r.1.setA a).update_zero_and_negative_flags a)
  | 0x39 =>
    let f := cpu.fetch_word
    let r := f.1.bus_read (wrapAdd16 f.2 cpu.regs.y)
    let a := r.1.regs.a &&& r.2
    some ((r.1.setA a).update_zero_and_negative_flags a)
  | 0x21 =>
    let f := cpu.fetch_byte
    let w := f.1.bus_read_word (wrapAdd8 f.2 cpu.regs.x)
    let r := w.1.bus_read w.2
    let a := r.1.regs.a &&& r.2
    some ((r.1.setA a).update_zero_and_negative_flags a)
  | 0x31 =>
    let f := cpu.fetch_byte
    let w := f.1.bus_read_word f.2
    let r := w.1.bus_read (wrapAdd16 w.2 cpu.regs.y)
    let a := r.1.regs.a &&& r.2
    some ((r.1.setA a).update_zero_and_negative_flags a)
  | 0x55 =>
    let f := cpu.fetch_byte
    let r := f.1.bus_read (wrapAdd8 f.2 cpu.regs.x)
    let a := r.1.regs.a ^^^ r.2
    some ((r.1.setA a).update_zero_and_negative_flags a)
  | 0x5D =>
    let f := cpu.fetch_word
    let r := f.1.bus_read (wrapAdd16 f.2 cpu.regs.x)
    let a := r.1.regs.a ^^^ r.2
    some ((r.1.setA a).update_zero_and_negative_flags a)
  | 0x59 =>
    let f := cpu.fetch_word
    let r := f.1.bus_read (wrapAdd16 f.2 cpu.regs.y)
    let a := r.1.regs.a ^^^ r.2
    some ((r.1.setA a).update_zero_and_negative_flags a)
  | 0x41 =>
    let f := cpu.fetch_byte
    let w := f.1.bus_read_word (wrapAdd8 f.2 cpu.regs.x)
    let r := w.1.bus_read w.2
    let a := r.1.regs.a ^^^ r.2
    some ((r.1.setA a).update_zero_and_negative_flags a)
  | 0x51 =>
    let f := cpu.fetch_byte
    let w := f.1.bus_read_word f.2
    let r := w.1.bus_read (wrapAdd16 w.2 cpu.regs.y)
    let a := r.1.regs.a ^^^ r.2
    some ((r.1.setA a).update_zero_and_negative_flags a)
  | 0x15 =>
    let f := cpu.fetch_byte
    let r := f.1.bus_read (wrapAdd8 f.2 cpu.regs.x)
    let a := r.1.regs.a ||| r.2
    some ((r.1.setA a).update_zero_and_negative_flags a)
  | 0x1D =>
    let f := cpu.fetch_word
    let r := f.1.bus_read (wrapAdd16 f.2 cpu.regs.x)
    let a := r.1.regs.a ||| r.2
    some ((r.1.setA a).update_zero_and_negative_flags a)
  | 0x19 =>
    let f := cpu.fetch_word
    let r := f.1.bus_read (wrapAdd16 f.2 cpu.regs.y)
    let a := r.1.regs.a ||| r.2
    some ((r.1.setA a).update_zero_and_negative_flags a)
  | 0x01 =>
    let f := cpu.fetch_byte
    let w := f.1.bus_read_word (wrapAdd8 f.2 cpu.regs.x)
    let r := w.1.bus_read w.2
    let a := r.1.regs.a ||| r.2
    some ((r.1.setA a).update_zero_and_negative_flags a)
  | 0x11 =>
    let f := cpu.fetch_byte
    let w := f.1.bus_read_word f.2
    let r := w.1.bus_read (wrapAdd16 w.2 cpu.regs.y)
    let a := r.1.regs.a ||| r.2
    some ((r.1.setA a).update_zero_and_negative_flags a)
  | 0x75 =>
    let f := cpu.fetch_byte
    let r := f.1.bus_read (wrapAdd8 f.2 cpu.regs.x)
    some (r.1.adc r.2)
  | 0xF5 =>
    let f := cpu.fetch_byte
    let r := f.1.bus_read (wrapAdd8 f.2 cpu.regs.x)
    some (r.1.sbc r.2)
  | 0x7D =>
    let f := cpu.fetch_word
    let r := f.1.bus_read (wrapAdd16 f.2 cpu.regs.x)
    some (r.1.adc r.2)
  | 0xFD =>
    let f := cpu.fetch_word
    let r := f.1.bus_read (wrapAdd16 f.2 cpu.regs.x)
    some (r.1.sbc r.2)
  | 0x79 =>
    let f := cpu.fetch_word
    let r := f.1.bus_read (wrapAdd16 f.2 cpu.regs.y)
    some (r.1.adc r.2)
  | 0xF9 =>
    let f := cpu.fetch_word
    let r := f.1.bus_read (wrapAdd16 f.2 cpu.regs.y)
    some (r.1.sbc r.2)
  | 0x61 =>
    let w := cpu.fetch_indirect_x
    let r := w.1.bus_read w.2
    some (r.1.adc r.2)
  | 0xF1 =>
    let w := cpu.fetch_indirect_y
    let r := w.1.bus_read w.2
    some (r.1.sbc r.2)
  | 0xE1 =>
    let w := cpu.fetch_indirect_x
    let r := w.1.bus_read w.2
    some (r.1.sbc r.2)
  | 0x71 =>
    let w := cpu.fetch_indirect_y
    let r := w.1.bus_read w.2
    some (r.1.adc r.2)
  | 0x0F | 0x1F | 0x2F | 0x3F | 0x4F | 0x5F | 0x6F | 0x7F =>
    let f := cpu.fetch_byte
    let f2 := f.1.fetch_byte
    let r := f2.1.bus_read f.2
    let bit := 1 <<< ((wrapSub8 opcode 0x0F) / 0x10)
    if r.2 &&& bit = 0 then some (r.1.setPC (branchTarget r.1.pc f2.2))
    else some r.1
  | 0x8F | 0x9F | 0xAF | 0xBF | 0xCF | 0xDF | 0xEF | 0xFF =>
    let f := cpu.fetch_byte
    let f2 := f.1.fetch_byte
    let r := f2.1.bus_read f.2
    let bit := 1 <<< ((wrapSub8 opcode 0x8F) / 0x10)
    if r.2 &&& bit ≠ 0 then some (r.1.setPC (branchTarget r.1.pc f2.2))
    else some r.1
  | 0x7C =>
    let f := cpu.fetch_word
    let addr := wrapAdd16 f.2 cpu.regs.x
    let r1 := f.1.bus_read addr
    let r2 := r1.1.bus_read (wrapAdd16 addr 1)
    some (r2.1.setPC ((r2.2 <<< 8) ||| r1.2))
  | 0x03 | 0x13 | 0x23 | 0x33 | 0x43 | 0x53 | 0x63 | 0x73 | 0x83 | 0x93 | 0xA3 | 0xB3
  | 0xC3 | 0xD3 | 0xE3 | 0xF3 | 0x0B | 0x1B | 0x2B | 0x3B | 0x4B | 0x5B | 0x6B | 0x7B
  | 0x8B | 0x9B | 0xAB | 0xBB | 0xEB | 0xFB =>
    some cpu
  | 0x02 | 0x22 | 0x42 | 0x62 | 0x82 | 0xC2 | 0xE2 =>
    some (cpu.setPC (wrapAdd16 cpu.pc 1))
  | 0x44 =>
    some (cpu.setPC (wrapAdd16 cpu.pc 1))
  | 0x54 | 0xD4 | 0xF4 =>
    some (cpu.setPC (wrapAdd16 cpu.pc 1))
  | 0x5C =>
    some (cpu.setPC (wrapAdd16 cpu.pc 2))
  | 0xDC | 0xFC =>
    some (cpu.setPC (wrapAdd16 cpu.pc 2))
  | 0x1A =>
    if cpu.cpu_type ≠ CpuType.NMOS6502 then
      let a := wrapAdd8 cpu.regs.a 1
      some ((cpu.setA a).update_zero_and_negative_flags a)
    else some cpu
  | 0x3A =>
    if cpu.cpu_type ≠ CpuType.NMOS6502 then
      let a := wrapSub8 cpu.regs.a 1
      some ((cpu.setA a).update_zero_and_negative_flags a)
    else some cpu
  | 0xB2 =>
    if cpu.cpu_type ≠ CpuType.NMOS6502 then
      let f := cpu.fetch_byte
      let w := f.1.bus_read_word f.2
      let r := w.1.bus_read w.2
      some ((r.1.setA r.2).update_zero_and_negative_flags r.2)
    else some cpu
  | 0x92 =>
    if cpu.cpu_type ≠ CpuType.NMOS6502 then
      let f := cpu.fetch_byte
      let w := f.1.bus_read_word f.2
      w.1.bus_write w.2 w.1.regs.a
    else some cpu
  | 0x07 | 0x17 | 0x27 | 0x37 | 0x47 | 0x57 | 0x67 | 0x77 =>
    let bit_n := (opcode >>> 4) &&& 0b111
    let mask := 0xFF ^^^ (1 <<< bit_n)
    let f := cpu.fetch_byte
    let r := f.1.bus_read f.2
    r.1.bus_write f.2 (r.2 &&& mask)
  | 0x87 | 0x97 | 0xA7 | 0xB7 | 0xC7 | 0xD7 | 0xE7 | 0xF7 =>
    let bit_n := (opcode >>> 4) &&& 0b111
    let mask := 1 <<< bit_n
    let f := cpu.fetch_byte
    let r := f.1.bus_read f.2
    r.1.bus_write f.2 (r.2 ||| mask)
  | 0xD2 =>
    let f := cpu.fetch_byte
    let w := f.1.bus_read_word f.2
    let r := w.1.bus_read w.2
    let value := r.2
    let result := wrapSub8 r.1.regs.a value
    some (r.1.setP (flagSet (flagSet (flagSet r.1.p
      Flags.CARRY (decide (r.1.regs.a ≥ value)))
      Flags.ZERO (r.1.regs.a == value))
      Flags.NEGATIVE ((result &&& 0x80) != 0)))
  | 0x32 =>
    let f := cpu.fetch_byte
    let w := f.1.bus_read_word f.2
    let r := w.1.bus_read w.2
    let a := r.1.regs.a &&& r.2
    let c1 := r.1.setA a
    some (c1.setP (flagSet (flagSet c1.p Flags.ZERO (a == 0))
      Flags.NEGATIVE ((a &&& 0x80) != 0)))
  | 0x52 =>
    let f := cpu.fetch_byte
    let w := f.1.bus_read_word f.2
    let r := w.1.bus_read w.2
    let a := r.1.regs.a ^^^ r.2
    let c1 := r.1.setA a
    some (c1.setP (flagSet (flagSet c1.p Flags.ZERO (a == 0))
      Flags.NEGATIVE ((a &&& 0x80) != 0)))
  | 0x12 =>
    let f := cpu.fetch_byte
    let w := f.1.bus_read_word f.2
    let r := w.1.bus_read w.2
    let a := r.1.regs.a ||| r.2
    let c1 := r.1.setA a
    some (c1.setP (flagSet (flagSet c1.p Flags.ZERO (a == 0))
      Flags.NEGATIVE ((a &&& 0x80) != 0)))
  | 0x72 =>
    let f := cpu.fetch_byte
    let w := f.1.bus_read_word f.2
    let r := w.1.bus_read w.2
    some (r.1.adc r.2)
  | 0xF2 =>
    let f := cpu.fetch_byte
    let w := f.1.bus_read_word f.2
    let r := w.1.bus_read w.2
    some (r.1.sbc r.2)
  | _ => some cpu

/-- The addressing modes of the disassembler (`disassembler.rs`). -/
inductive AddressingMode
  | Implied
  | Accumulator
  | Immediate
  | ZeroPage
  | ZeroPageX
  | ZeroPageY
  | ZeroPageIndirect
  | Absolute
  | AbsoluteX
  | AbsoluteY
  | Indirect
  | IndirectX
  | IndirectY
  | Relative
  | IndirectAbsolute
deriving DecidableEq, Repr

/-- Rust `AddressingMode::operand_bytes`: how many operand bytes the disassembler
shows for each mode. -/
def AddressingMode.operand_bytes : AddressingMode → Nat
  | AddressingMode.Implied => 0
  | AddressingMode.Accumulator => 0
  | AddressingMode.Immediate => 1
  | AddressingMode.ZeroPage => 1
  | AddressingMode.ZeroPageX => 1
  | AddressingMode.ZeroPageY => 1
  | AddressingMode.ZeroPageIndirect => 1
  | AddressingMode.Relative => 1
  | AddressingMode.IndirectX => 1
  | AddressingMode.IndirectY => 1
  | AddressingMode.Absolute => 2
  | AddressingMode.AbsoluteX => 2
  | AddressingMode.AbsoluteY => 2
  | AddressingMode.Indirect => 2
  | AddressingMode.IndirectAbsolute => 2

/-- The 256-entry `OPCODES` table of `disassembler.rs`. -/
def OPCODES : List (Nat × String × AddressingMode) := [
  (0x00, "BRK", AddressingMode.Implied),
  (0x01, "ORA", AddressingMode.IndirectX),
  (0x02, "KIL", AddressingMode.Implied),
  (0x03, "KIL", AddressingMode.Implied),
  (0x04, "TSB", AddressingMode.ZeroPage),
  (0x05, "ORA", AddressingMode.ZeroPage),
  (0x06, "ASL", AddressingMode.ZeroPage),
  (0x07, "RMB0", AddressingMode.ZeroPage),
  (0x08, "PHP", AddressingMode.Implied),
  (0x09, "ORA", AddressingMode.Immediate),
  (0x0A, "ASL", AddressingMode.Accumulator),
  (0x0B, "NOP", AddressingMode.Implied),
  (0x0C, "TSB", AddressingMode.Absolute),
  (0x0D, "ORA", AddressingMode.Absolute),
  (0x0E, "ASL", AddressingMode.Absolute),
  (0x0F, "BBR0", AddressingMode.ZeroPage),
  (0x10, "BPL", AddressingMode.Relative),
  (0x11, "ORA", AddressingMode.IndirectY),
  (0x12, "ORA", AddressingMode.ZeroPageIndirect),
  (0x13, "NOP", AddressingMode.Implied),
  (0x14, "TRB", AddressingMode.ZeroPage),
  (0x15, "ORA", AddressingMode.ZeroPageX),
  (0x16, "ASL", AddressingMode.ZeroPageX),
  (0x17, "RMB1", AddressingMode.ZeroPage),
  (0x18, "CLC", AddressingMode.Implied),
  (0x19, "ORA", AddressingMode.AbsoluteY),
  (0x1A, "INA", AddressingMode.Implied),
  (0x1B, "NOP", AddressingMode.Implied),
  (0x1C, "TRB", AddressingMode.Absolute),
  (0x1D, "ORA", AddressingMode.AbsoluteX),
  (0x1E, "ASL", AddressingMode.AbsoluteX),
  (0x1F, "BBR1", AddressingMode.ZeroPage),
  (0x20, "JSR", AddressingMode.Absolute),
  (0x21, "AND", AddressingMode.IndirectX),
  (0x22, "KIL", AddressingMode.Implied),
  (0x23, "NOP", AddressingMode.Implied),
  (0x24, "BIT", AddressingMode.ZeroPage),
  (0x25, "AND", AddressingMode.ZeroPage),
  (0x26, "ROL", AddressingMode.ZeroPage),
  (0x27, "RMB2", AddressingMode.ZeroPage),
  (0x28, "PLP", AddressingMode.Implied),
  (0x29, "AND", AddressingMode.Immediate),
  (0x2A, "ROL", AddressingMode.Accumulator),
  (0x2B, "NOP", AddressingMode.Implied),
  (0x2C, "BIT", AddressingMode.Absolute),
  (0x2D, "AND", AddressingMode.Absolute),
  (0x2E, "ROL", AddressingMode.Absolute),
  (0x2F, "BBR2", AddressingMode.ZeroPage),
  (0x30, "BMI", AddressingMode.Relative),
  (0x31, "AND", AddressingMode.IndirectY),
  (0x32, "AND", AddressingMode.ZeroPageIndirect),
  (0x33, "NOP", AddressingMode.Implied),
  (0x34, "BIT", AddressingMode.ZeroPageX),
  (0x35, "AND", AddressingMode.ZeroPageX),
  (0x36, "ROL", AddressingMode.ZeroPageX),
  (0x37, "RMB3", AddressingMode.ZeroPage),
  (0x38, "SEC", AddressingMode.Implied),
  (0x39, "AND", AddressingMode.AbsoluteY),
  (0x3A, "DEA", AddressingMode.Implied),
  (0x3B, "NOP", AddressingMode.Implied),
  (0x3C, "BIT", AddressingMode.AbsoluteX),
  (0x3D, "AND", AddressingMode.AbsoluteX),
  (0x3E, "ROL", AddressingMode.AbsoluteX),
  (0x3F, "BBR3", AddressingMode.ZeroPage),
  (0x40, "RTI", AddressingMode.Implied),
  (0x41, "EOR", AddressingMode.IndirectX),
  (0x42, "KIL", AddressingMode.Implied),
  (0x43, "NOP", AddressingMode.Implied),
  (0x44, "NOP", AddressingMode.Implied),
  (0x45, "EOR", AddressingMode.ZeroPage),
  (0x46, "LSR", AddressingMode.ZeroPage),
  (0x47, "RMB4", AddressingMode.ZeroPage),
  (0x48, "PHA", AddressingMode.Implied),
  (0x49, "EOR", AddressingMode.Immediate),
  (0x4A, "LSR", AddressingMode.Accumulator),
  (0x4B, "NOP", AddressingMode.Implied),
  (0x4C, "JMP", AddressingMode.Absolute),
  (0x4D, "EOR", AddressingMode.Absolute),
  (0x4E, "LSR", AddressingMode.Absolute),
  (0x4F, "BBR4", AddressingMode.ZeroPage),
  (0x50, "BVC", AddressingMode.Relative),
  (0x51, "EOR", AddressingMode.IndirectY),
  (0x52, "EOR", AddressingMode.ZeroPageIndirect),
  (0x53, "NOP", AddressingMode.Implied),
  (0x54, "NOP", AddressingMode.Implied),
  (0x55, "EOR", AddressingMode.ZeroPageX),
  (0x56, "LSR", AddressingMode.ZeroPageX),
  (0x57, "RMB5", AddressingMode.ZeroPage),
  (0x58, "CLI", AddressingMode.Implied),
  (0x59, "EOR", AddressingMode.AbsoluteY),
  (0x5A, "PHY", AddressingMode.Implied),
  (0x5B, "NOP", AddressingMode.Implied),
  (0x5C, "JMP", AddressingMode.IndirectAbsolute),
  (0x5D, "EOR", AddressingMode.AbsoluteX),
  (0x5E, "LSR", AddressingMode.AbsoluteX),
  (0x5F, "BBR5", AddressingMode.ZeroPage),
  (0x60, "RTS", AddressingMode.Implied),
  (0x61, "ADC", AddressingMode.IndirectX),
  (0x62, "KIL", AddressingMode.Implied),
  (0x63, "NOP", AddressingMode.Implied),
  (0x64, "STZ", AddressingMode.ZeroPage),
  (0x65, "ADC", AddressingMode.ZeroPage),
  (0x66, "ROR", AddressingMode.ZeroPage),
  (0x67, "RMB6", AddressingMode.ZeroPage),
  (0x68, "PLA", AddressingMode.Implied),
  (0x69, "ADC", AddressingMode.Immediate),
  (0x6A, "ROR", AddressingMode.Accumulator),
  (0x6B, "NOP", AddressingMode.Implied),
  (0x6C, "JMP", AddressingMode.Indirect),
  (0x6D, "ADC", AddressingMode.Absolute),
  (0x6E, "ROR", AddressingMode.Absolute),
  (0x6F, "BBR6", AddressingMode.ZeroPage),
  (0x70, "BVS", AddressingMode.Relative),
  (0x71, "ADC", AddressingMode.IndirectY),
  (0x72, "ADC", AddressingMode.ZeroPageIndirect),
  (0x73, "NOP", AddressingMode.Implied),
  (0x74, "STZ", AddressingMode.ZeroPageX),
  (0x75, "ADC", AddressingMode.ZeroPageX),
  (0x76, "ROR", AddressingMode.ZeroPageX),
  (0x77, "RMB7", AddressingMode.ZeroPage),
  (0x78, "SEI", AddressingMode.Implied),
  (0x79, "ADC", AddressingMode.AbsoluteY),
  (0x7A, "PLY", AddressingMode.Implied),
  (0x7B, "NOP", AddressingMode.Implied),
  (0x7C, "JMP", AddressingMode.IndirectAbsolute),
  (0x7D, "ADC", AddressingMode.AbsoluteX),
  (0x7E, "ROR", AddressingMode.AbsoluteX),
  (0x7F, "BBR7", AddressingMode.ZeroPage),
  (0x80, "BRA", AddressingMode.Relative),
  (0x81, "STA", AddressingMode.IndirectX),
  (0x82, "NOP", AddressingMode.Implied),
  (0x83, "NOP", AddressingMode.Implied),
  (0x84, "STY", AddressingMode.ZeroPage),
  (0x85, "STA", AddressingMode.ZeroPage),
  (0x86, "STX", AddressingMode.ZeroPage),
  (0x87, "SMB0", AddressingMode.ZeroPage),
  (0x88, "DEY", AddressingMode.Implied),
  (0x89, "BIT", AddressingMode.Immediate),
  (0x8A, "TXA", AddressingMode.Implied),
  (0x8B, "NOP", AddressingMode.Implied),
  (0x8C, "STY", AddressingMode.Absolute),
  (0x8D, "STA", AddressingMode.Absolute),
  (0x8E, "STX", AddressingMode.Absolute),
  (0x8F, "BBS0", AddressingMode.ZeroPage),
  (0x90, "BCC", AddressingMode.Relative),
  (0x91, "STA", AddressingMode.IndirectY),
  (0x92, "STA", AddressingMode.ZeroPageIndirect),
  (0x93, "NOP", AddressingMode.Implied),
  (0x94, "STY", AddressingMode.ZeroPageX),
  (0x95, "STA", AddressingMode.ZeroPageX),
  (0x96, "STX", AddressingMode.ZeroPageY),
  (0x97, "SMB1", AddressingMode.ZeroPage),
  (0x98, "TYA", AddressingMode.Implied),
  (0x99, "STA", AddressingMode.AbsoluteY),
  (0x9A, "TXS", AddressingMode.Implied),
  (0x9B, "NOP", AddressingMode.Implied),
  (0x9C, "STZ", AddressingMode.Absolute),
  (0x9D, "STA", AddressingMode.AbsoluteX),
  (0x9E, "STZ", AddressingMode.AbsoluteX),
  (0x9F, "BBS1", AddressingMode.ZeroPage),
  (0xA0, "LDY", AddressingMode.Immediate),
  (0xA1, "LDA", AddressingMode.IndirectX),
  (0xA2, "LDX", AddressingMode.Immediate),
  (0xA3, "NOP", AddressingMode.Implied),
  (0xA4, "LDY", AddressingMode.ZeroPage),
  (0xA5, "LDA", AddressingMode.ZeroPage),
  (0xA6, "LDX", AddressingMode.ZeroPage),
  (0xA7, "SMB2", AddressingMode.ZeroPage),
  (0xA8, "TAY", AddressingMode.Implied),
  (0xA9, "LDA", AddressingMode.Immediate),
  (0xAA, "TAX", AddressingMode.Implied),
  (0xAB, "NOP", AddressingMode.Implied),
  (0xAC, "LDY", AddressingMode.Absolute),
  (0xAD, "LDA", AddressingMode.Absolute),
  (0xAE, "LDX", AddressingMode.Absolute),
  (0xAF, "BBS2", AddressingMode.ZeroPage),
  (0xB0, "BCS", AddressingMode.Relative),
  (0xB1, "LDA", AddressingMode.IndirectY),
  (0xB2, "LDA", AddressingMode.ZeroPageIndirect),
  (0xB3, "NOP", AddressingMode.Implied),
  (0xB4, "LDY", AddressingMode.ZeroPageX),
  (0xB5, "LDA", AddressingMode.ZeroPageX),
  (0xB6, "LDX", AddressingMode.ZeroPageY),
  (0xB7, "SMB3", AddressingMode.ZeroPage),
  (0xB8, "CLV", AddressingMode.Implied),
  (0xB9, "LDA", AddressingMode.AbsoluteY),
  (0xBA, "TSX", AddressingMode.Implied),
  (0xBB, "NOP", AddressingMode.Implied),
  (0xBC, "LDY", AddressingMode.AbsoluteX),
  (0xBD, "LDA", AddressingMode.AbsoluteX),
  (0xBE, "LDX", AddressingMode.AbsoluteY),
  (0xBF, "BBS3", AddressingMode.ZeroPage),
  (0xC0, "CPY", AddressingMode.Immediate),
  (0xC1, "CMP", AddressingMode.IndirectX),
  (0xC2, "NOP", AddressingMode.Implied),
  (0xC3, "NOP", AddressingMode.Implied),
  (0xC4, "CPY", AddressingMode.ZeroPage),
  (0xC5, "CMP", AddressingMode.ZeroPage),
  (0xC6, "DEC", AddressingMode.ZeroPage),
  (0xC7, "SMB4", AddressingMode.ZeroPage),
  (0xC8, "INY", AddressingMode.Implied),
  (0xC9, "CMP", AddressingMode.Immediate),
  (0xCA, "DEX", AddressingMode.Implied),
  (0xCB, "WAI", AddressingMode.Implied),
  (0xCC, "CPY", AddressingMode.Absolute),
  (0xCD, "CMP", AddressingMode.Absolute),
  (0xCE, "DEC", AddressingMode.Absolute),
  (0xCF, "BBS4", AddressingMode.ZeroPage),
  (0xD0, "BNE", AddressingMode.Relative),
  (0xD1, "CMP", AddressingMode.IndirectY),
  (0xD2, "CMP", AddressingMode.ZeroPageIndirect),
  (0xD3, "NOP", AddressingMode.Implied),
  (0xD4, "NOP", AddressingMode.Implied),
  (0xD5, "CMP", AddressingMode.ZeroPageX),
  (0xD6, "DEC", AddressingMode.ZeroPageX),
  (0xD7, "SMB5", AddressingMode.ZeroPage),
  (0xD8, "CLD", AddressingMode.Implied),
  (0xD9, "CMP", AddressingMode.AbsoluteY),
  (0xDA, "PHX", AddressingMode.Implied),
  (0xDB, "STP", AddressingMode.Implied),
  (0xDC, "NOP", AddressingMode.Implied),
  (0xDD, "CMP", AddressingMode.AbsoluteX),
  (0xDE, "DEC", AddressingMode.AbsoluteX),
  (0xDF, "BBS5", AddressingMode.ZeroPage),
  (0xE0, "CPX", AddressingMode.Immediate),
  (0xE1, "SBC", AddressingMode.IndirectX),
  (0xE2, "NOP", AddressingMode.Implied),
  (0xE3, "NOP", AddressingMode.Implied),
  (0xE4, "CPX", AddressingMode.ZeroPage),
  (0xE5, "SBC", AddressingMode.ZeroPage),
  (0xE6, "INC", AddressingMode.ZeroPage),
  (0xE7, "SMB6", AddressingMode.ZeroPage),
  (0xE8, "INX", AddressingMode.Implied),
  (0xE9, "SBC", AddressingMode.Immediate),
  (0xEA, "NOP", AddressingMode.Implied),
  (0xEB, "NOP", AddressingMode.Implied),
  (0xEC, "CPX", AddressingMode.Absolute),
  (0xED, "SBC", AddressingMode.Absolute),
  (0xEE, "INC", AddressingMode.Absolute),
  (0xEF, "BBS6", AddressingMode.ZeroPage),
  (0xF0, "BEQ", AddressingMode.Relative),
  (0xF1, "SBC", AddressingMode.IndirectY),
  (0xF2, "SBC", AddressingMode.ZeroPageIndirect),
  (0xF3, "NOP", AddressingMode.Implied),
  (0xF4, "NOP", AddressingMode.Implied),
  (0xF5, "SBC", AddressingMode.ZeroPageX),
  (0xF6, "INC", AddressingMode.ZeroPageX),
  (0xF7, "SMB7", AddressingMode.ZeroPage),
  (0xF8, "SED", AddressingMode.Implied),
  (0xF9, "SBC", AddressingMode.AbsoluteY),
  (0xFA, "PLX", AddressingMode.Implied),
  (0xFB, "NOP", AddressingMode.Implied),
  (0xFC, "NOP", AddressingMode.Implied),
  (0xFD, "SBC", AddressingMode.AbsoluteX),
  (0xFE, "INC", AddressingMode.AbsoluteX),
  (0xFF, "NOP", AddressingMode.Implied)
]

/-- Rust `Disassembler::lookup_opcode`: linear search of the table, with the
`("???", Implied)` fallback. -/
def lookup_opcode (opcode : Nat) : String × AddressingMode :=
  match OPCODES.find? (fun e => e.1 == opcode) with
  | some e => e.2
  | none => ("???", AddressingMode.Implied)

/-- The operand bytes `CPU::decode_execute` consumes per opcode, derived
arm-by-arm from `decode_execute` in the order of the source match: one byte
per `fetch_byte` (also inside `fetch_indirect_x`/`fetch_indirect_y`), two per
`fetch_word`, plus the explicit `pc` bumps of the multi-byte NOP arms.  The
variant-gated `$B2`/`$92` arms are listed with their non-NMOS count; on
NMOS6502 the gated arm fetches nothing (see `operandBytesConsumed`). -/
def CONSUMED : List (Nat × Nat) := [
  (0xA9, 1), (0xA5, 1), (0xAD, 2), (0xA2, 1), (0xA6, 1), (0xAE, 2),
  (0xA0, 1), (0xA4, 1), (0xAC, 2), (0x85, 1), (0x8D, 2), (0x86, 1),
  (0x8E, 2), (0x84, 1), (0x8C, 2), (0x29, 1), (0x25, 1), (0x2D, 2),
  (0x49, 1), (0x45, 1), (0x4D, 2), (0x08, 0), (0x05, 1), (0x0D, 2),
  (0x24, 1), (0x2C, 2), (0x34, 1), (0x3C, 2), (0x69, 1), (0x65, 1),
  (0x6D, 2), (0xE9, 1), (0xE5, 1), (0xED, 2), (0xC9, 1), (0xC5, 1),
  (0xCD, 2), (0xE0, 1), (0xE4, 1), (0xEC, 2), (0xC0, 1), (0xC4, 1),
  (0xCC, 2), (0x0A, 0), (0x06, 1), (0x0E, 2), (0x4A, 0), (0x46, 1),
  (0x4E, 2), (0x2A, 0), (0x26, 1), (0x2E, 2), (0x6A, 0), (0x66, 1),
  (0x6E, 2), (0x4C, 2), (0x6C, 2), (0x20, 2), (0x60, 0), (0x40, 0),
  (0x80, 1), (0x9C, 2), (0x9E, 2), (0x64, 1), (0x74, 1), (0x1C, 2),
  (0x14, 1), (0x0C, 2), (0x04, 1), (0xDA, 0), (0xFA, 0), (0x5A, 0),
  (0x7A, 0), (0x89, 1), (0xCB, 0), (0xDB, 0), (0xD8, 0), (0xF8, 0),
  (0x00, 0), (0xEA, 0), (0x10, 1), (0x48, 0), (0x30, 1), (0xBC, 2),
  (0xF0, 1), (0x38, 0), (0x68, 0), (0xFE, 2), (0x88, 0), (0x9A, 0),
  (0xD0, 1), (0xCA, 0), (0x98, 0), (0xAA, 0), (0x18, 0), (0x90, 1),
  (0xB0, 1), (0xA8, 0), (0xBA, 0), (0x8A, 0), (0x28, 0), (0x50, 1),
  (0x70, 1), (0xE8, 0), (0xC8, 0), (0xBD, 2), (0x58, 0), (0x78, 0),
  (0xB8, 0), (0xB6, 1), (0x99, 2), (0xD9, 2), (0xBE, 2), (0x96, 1),
  (0xB9, 2), (0xB4, 1), (0x9D, 2), (0xDD, 2), (0x94, 1), (0xD5, 1),
  (0xB5, 1), (0xC1, 1), (0xD1, 1), (0x95, 1), (0xB1, 1), (0x91, 1),
  (0xA1, 1), (0x81, 1), (0x16, 1), (0x56, 1), (0x36, 1), (0x76, 1),
  (0x1E, 2), (0x5E, 2), (0x3E, 2), (0x7E, 2), (0xE6, 1), (0xC6, 1),
  (0xEE, 2), (0xCE, 2), (0xF6, 1), (0x09, 1), (0xD6, 1), (0xDE, 2),
  (0x35, 1), (0x3D, 2), (0x39, 2), (0x21, 1), (0x31, 1), (0x55, 1),
  (0x5D, 2), (0x59, 2), (0x41, 1), (0x51, 1), (0x15, 1), (0x1D, 2),
  (0x19, 2), (0x01, 1), (0x11, 1), (0x75, 1), (0xF5, 1), (0x7D, 2),
  (0xFD, 2), (0x79, 2), (0xF9, 2), (0x61, 1), (0xF1, 1), (0xE1, 1),
  (0x71, 1), (0x0F, 2), (0x1F, 2), (0x2F, 2), (0x3F, 2), (0x4F, 2),
  (0x5F, 2), (0x6F, 2), (0x7F, 2), (0x8F, 2), (0x9F, 2), (0xAF, 2),
  (0xBF, 2), (0xCF, 2), (0xDF, 2), (0xEF, 2), (0xFF, 2), (0x7C, 2),
  (0x03, 0), (0x13, 0), (0x23, 0), (0x33, 0), (0x43, 0), (0x53, 0),
  (0x63, 0), (0x73, 0), (0x83, 0), (0x93, 0), (0xA3, 0), (0xB3, 0),
  (0xC3, 0), (0xD3, 0), (0xE3, 0), (0xF3, 0), (0x0B, 0), (0x1B, 0),
  (0x2B, 0), (0x3B, 0), (0x4B, 0), (0x5B, 0), (0x6B, 0), (0x7B, 0),
  (0x8B, 0), (0x9B, 0), (0xAB, 0), (0xBB, 0), (0xEB, 0), (0xFB, 0),
  (0x02, 1), (0x22, 1), (0x42, 1), (0x62, 1), (0x82, 1), (0xC2, 1),
  (0xE2, 1), (0x44, 1), (0x54, 1), (0xD4, 1), (0xF4, 1), (0x5C, 2),
  (0xDC, 2), (0xFC, 2), (0x1A, 0), (0x3A, 0), (0xB2, 1), (0x92, 1),
  (0x07, 1), (0x17, 1), (0x27, 1), (0x37, 1), (0x47, 1), (0x57, 1),
  (0x67, 1), (0x77, 1), (0x87, 1), (0x97, 1), (0xA7, 1), (0xB7, 1),
  (0xC7, 1), (0xD7, 1), (0xE7, 1), (0xF7, 1), (0xD2, 1), (0x32, 1),
  (0x52, 1), (0x12, 1), (0x72, 1), (0xF2, 1)
]

/-- The number of operand bytes `CPU::decode_execute` consumes for an opcode
on a given CPU variant — the amount PC advances past the opcode byte before
any jump or branch target is applied. -/
def operandBytesConsumed (c : CpuType) (opcode : Nat) : Nat :=
  if (opcode = 0xB2 ∨ opcode = 0x92) ∧ c = CpuType.NMOS6502 then 0
  else
    match CONSUMED.find? (fun e => e.1 == opcode) with
    | some e => e.2
    | none => 0

/-- The opcodes on which the disassembler table and the CPU disagree about
the operand byte count: the BBRn/BBSn branches (table 1, CPU 2), the
one-extra-byte NOPs $02/$22/$42/$62/$82/$C2/$E2/$44/$54/$D4/$F4 (table 0,
CPU 1), the two-extra-byte NOPs $DC/$FC (table 0, CPU 2), and $B2/$92 on
NMOS6502 where the gated arm fetches nothing (table 1, CPU 0). -/
def c1Exception (c : CpuType) (opcode : Nat) : Bool :=
  [0x0F, 0x1F, 0x2F, 0x3F, 0x4F, 0x5F, 0x6F, 0x7F,
   0x8F, 0x9F, 0xAF, 0xBF, 0xCF, 0xDF, 0xEF, 0xFF,
   0x02, 0x22, 0x42, 0x62, 0x82, 0xC2, 0xE2,
   0x44, 0x54, 0xD4, 0xF4, 0xDC, 0xFC].contains opcode
  || (c == CpuType.NMOS6502 && (opcode == 0xB2 || opcode == 0x92))

/-- Rust `ROM::load_from_bytes` byte limits per system. -/
def maxRomSize : SystemType → Nat
  | SystemType.AppleIIc => 0x8000
  | SystemType.Generic => 0x10000

/-- Rust `ROM::load_from_bytes` (`rom.rs`): error (`none`) for an empty or
oversize image, otherwise a buffer of exactly the maximum size filled with
`0xFF` and overwritten by the input at the front. -/
def ROM.load_from_bytes (bytes : List Nat) (system_type : SystemType) :
    Option (List Nat) :=
  if bytes = [] then none
  else if bytes.length > maxRomSize system_type then none
  else some (List.ofFn (fun i : Fin (maxRomSize system_type) =>
    if h : i.val < bytes.length then bytes.get (Fin.mk i.val h) else 0xFF))

/-- The opcode arms of `decode_execute` that are gated on the CPU variant and
fall through to a pure NOP on the non-supporting variant: `$1A`/`$3A` (INA/DEA)
and `$B2`/`$92` (LDA/STA zero-page-indirect) on NMOS6502, and `$CB`/`$DB`
(WAI/STP) on everything but WDC65C02S. -/
def variantGatedNop (c : CpuType) (opcode : Nat) : Bool :=
  match c, opcode with
  | CpuType.NMOS6502, 0x1A => true
  | CpuType.NMOS6502, 0x3A => true
  | CpuType.NMOS6502, 0xB2 => true
  | CpuType.NMOS6502, 0x92 => true
  | CpuType.NMOS6502, 0xCB => true
  | CpuType.NMOS6502, 0xDB => true
  | CpuType.CMOS65C02, 0xCB => true
  | CpuType.CMOS65C02, 0xDB => true
  | _, _ => false

/-- A Generic-system CPU for exercising instructions: flat RAM holds `f`. -/
def mkGenericCPU (ct : CpuType) (f : Nat → Nat) (pc p : Nat) (rg : Registers) : CPU :=
  { system_type := SystemType.Generic
    cpu_type := ct
    bus := { Bus.new SystemType.Generic ct with
      bus_ram := { size := 0x10000, data := f, id := "BUSRAM" } }
    regs := rg
    pc := pc
    p := p }

/-- NMOS machine about to execute the operand of `STZ $10` (`$64 $10`):
memory holds `$55` at `$0010`. -/
def c3cpu : CPU :=
  mkGenericCPU CpuType.NMOS6502
    (fun a => if a = 0x0301 then 0x10 else if a = 0x0010 then 0x55 else 0)
    0x0301 Flags.UNUSED { a := 0, x := 0, y := 0, sp := 0xFF }

/-- Machine about to execute the operand of `LDA ($FF),Y` (`$B1 $FF`) with
Y = 0: the zero-page pointer bytes are `$34` at `$00FF` and `$12` at `$0000`,
while `$0100` holds `$56`; `$5634` holds `$77` and `$1234` holds `$99`. -/
def c5cpu : CPU :=
  mkGenericCPU CpuType.NMOS6502
    (fun a =>
      if a = 0x0301 then 0xFF else if a = 0x00FF then 0x34
      else if a = 0x0000 then 0x12 else if a = 0x0100 then 0x56
      else if a = 0x5634 then 0x77 else if a = 0x1234 then 0x99 else 0)
    0x0301 Flags.UNUSED { a := 0, x := 0, y := 0, sp := 0xFF }

/-- Machine with D=1, C=0, A=$15 about to execute the operand of `ADC #$27`. -/
def c9cpu : CPU :=
  mkGenericCPU CpuType.CMOS65C02
    (fun a => if a = 0x0301 then 0x27 else 0)
    0x0301 (Flags.UNUSED ||| Flags.DECIMAL) { a := 0x15, x := 0, y := 0, sp := 0xFF }

/-- C1, counterexample: for opcode `$0F` (BBR0) the disassembler table
reports a single operand byte (ZeroPage), but `decode_execute` fetches two
(zero-page address and relative offset), on every CPU variant. -/
theorem C1_operand_bytes_counterexample :
    (lookup_opcode 0x0F).2.operand_bytes = 1 ∧
    operandBytesConsumed CpuType.NMOS6502 0x0F = 2 ∧
    operandBytesConsumed CpuType.CMOS65C02 0x0F = 2 ∧
    operandBytesConsumed CpuType.WDC65C02S 0x0F = 2 := by
  refine ⟨rfl, rfl, rfl, rfl⟩

set_option maxRecDepth 100000 in
set_option maxHeartbeats 6400000 in
/-- Boolean sweep for C1: outside the exception set the two tables agree on
every opcode byte, for each CPU variant. -/
theorem c1_check (c : CpuType) :
    ((List.range 256).all (fun op =>
      c1Exception c op || (operandBytesConsumed c op
        == (lookup_opcode op).2.operand_bytes))) = true := by
  cases c <;> rfl

/-- C1, amended: for every CPU variant and every opcode byte outside the
exception set (BBRn/BBSn, the one-extra-byte NOPs
`$02/$22/$42/$62/$82/$C2/$E2/$44/$54/$D4/$F4`, the two-extra-byte NOPs
`$DC/$FC`, and `$B2/$92` on NMOS6502), the operand byte count of the
disassembler's opcode table equals the count `decode_execute` consumes. -/
theorem C1_operand_bytes_agree (c : CpuType) (opcode : Nat) (hop : opcode < 256)
    (h : c1Exception c opcode = false) :
    operandBytesConsumed c opcode = (lookup_opcode opcode).2.operand_bytes := by
  have hall := (List.all_eq_true).mp (c1_check c) opcode (List.mem_range.mpr hop)
  rw [h, Bool.false_or] at hall
  simpa using hall

/-- Witness for C1 at the in-agreement opcode `$A9` on CMOS65C02. -/
theorem C1_operand_bytes_agree_witness :
    c1Exception CpuType.CMOS65C02 0xA9 = false ∧
    operandBytesConsumed CpuType.CMOS65C02 0xA9
      = (lookup_opcode 0xA9).2.operand_bytes :=
  ⟨rfl, C1_operand_bytes_agree CpuType.CMOS65C02 0xA9 (by decide) rfl⟩

/-- C2: evaluating the read sequence `$C081, $C082, $C081` from the fresh
IOU state.  The two `$C081` reads are not consecutive, yet the third read
sets the LC WRITE bit (after the first two reads it is still clear): the
per-switch counter is never reset by the intervening `$C082` read, because
each `$C08x` counter only ever sees its own address. -/
theorem C2_write_enable_latch_eval :
    checkBits ((((IOU.new.ss_read 0xC081).1.ss_read 0xC082).1.ss_read
      0xC081).1).mem_state MemStateMask.WRITE = true ∧
    checkBits (((IOU.new.ss_read 0xC081).1.ss_read 0xC082).1).mem_state
      MemStateMask.WRITE = false := by
  refine ⟨rfl, rfl⟩

/-- C3, counterexample: on NMOS6502 the 65C02-only opcode `$64` (STZ zp) is
not a NOP — executing it overwrites memory (`$0010` goes from `$55` to 0). -/
theorem C3_undefined_opcode_counterexample :
    (c3cpu.bus.read_byte 0x0010).2 = 0x55 ∧
    (c3cpu.decode_execute 0x64).map (fun c => (c.bus.read_byte 0x0010).2)
      = some 0x00 := by
  refine ⟨rfl, rfl⟩

set_option maxRecDepth 100000 in
set_option maxHeartbeats 6400000 in
/-- C3, amended: exactly the variant-gated opcodes (`$1A/$3A/$B2/$92` on
NMOS6502, `$CB/$DB` off-WDC) execute as NOPs on the non-supporting variant:
`decode_execute` returns the state unchanged, so the whole instruction only
advances PC by the one opcode byte and registers, flags and memory are
untouched — also for `$B2`/`$92`, whose gated arm does not even fetch the
documented operand byte. -/
theorem C3_gated_opcodes_are_nops (cpu : CPU) (opcode : Nat)
    (h : variantGatedNop cpu.cpu_type opcode = true) :
    cpu.decode_execute opcode = some cpu := by
  unfold variantGatedNop at h
  split at h <;> rename_i heqs
  · show (if cpu.cpu_type ≠ CpuType.NMOS6502 then _ else some cpu) = some cpu
    simp [heqs]
  · show (if cpu.cpu_type ≠ CpuType.NMOS6502 then _ else some cpu) = some cpu
    simp [heqs]
  · show (if cpu.cpu_type ≠ CpuType.NMOS6502 then _ else some cpu) = some cpu
    simp [heqs]
  · show (if cpu.cpu_type ≠ CpuType.NMOS6502 then _ else some cpu) = some cpu
    simp [heqs]
  · show (if cpu.cpu_type = CpuType.WDC65C02S then _ else some cpu) = some cpu
    simp [heqs]
  · show (if cpu.cpu_type = CpuType.WDC65C02S then _ else some cpu) = some cpu
    simp [heqs]
  · show (if cpu.cpu_type = CpuType.WDC65C02S then _ else some cpu) = some cpu
    simp [heqs]
  · show (if cpu.cpu_type = CpuType.WDC65C02S then _ else some cpu) = some cpu
    simp [heqs]
  · exact absurd h (by simp)

/-- Witness for C3 at `$1A` (INA) on the NMOS machine `c3cpu`. -/
theorem C3_gated_opcodes_are_nops_witness :
    c3cpu.decode_execute 0x1A = some c3cpu :=
  C3_gated_opcodes_are_nops c3cpu 0x1A rfl

/-- C5: executing `LDA ($FF),Y` (`$B1`) on `c5cpu` loads from `$5634` — the
pointer high byte came from `$0100`, not from zero page — so A ends up
`$77`, though the zero-page-wrapped pointer `$1234` holds `$99`; the
`fetch_indirect_y` helper (used only by ADC/SBC) computes the wrapped
address `$1234`. -/
theorem C5_indirect_y_pointer_eval :
    (c5cpu.decode_execute 0xB1).map (fun c => c.regs.a) = some 0x77 ∧
    (c5cpu.bus.read_byte 0x5634).2 = 0x77 ∧
    (c5cpu.bus.read_byte 0x1234).2 = 0x99 ∧
    c5cpu.fetch_indirect_y.2 = 0x1234 := by
  refine ⟨rfl, rfl, rfl, rfl⟩

/-- C6: on Generic, writing `$03` to `$BFFC` latches `i_port` and requests
both IRQ and NMI, but reading `$BFFC` back returns the flat-RAM byte `$00`,
not the latched `$03` — the latch read-back in `Bus::read_byte` is commented
out in the source. -/
theorem C6_bffc_feedback_eval :
    ((Bus.new SystemType.Generic CpuType.NMOS6502).write_byte 0xBFFC 0x03).map
      (fun p => (p.1.interrupts.irq, p.1.interrupts.nmi, p.1.i_port,
        (p.1.read_byte 0xBFFC).2))
      = some (true, true, 0x03, 0x00) ∧ (0x00 : Nat) ≠ 0x03 := by
  exact ⟨rfl, by decide⟩

/-- C7: `Memory::write_byte` on a 4 KiB bank at the out-of-range address
`$1000` panics (indexing `self.data[addr]` out of bounds), modelled as
`none` — it does not return normally with the bank unchanged. -/
theorem C7_out_of_range_write_panics :
    Memory.write_byte (Memory.new 0x1000 "LCMAIN1") 0x1000 0xAA = none := by
  rfl

/-- C9: with D=1, C=0 and A=`$15`, executing `ADC #$27` (opcode `$69`,
operand `$27`) yields A=`$42` with carry clear and zero clear. -/
theorem C9_decimal_adc_eval :
    (c9cpu.decode_execute 0x69).map
      (fun c => (c.regs.a, flagGet c.p Flags.CARRY, flagGet c.p Flags.ZERO))
      = some (0x42, false, false) := by
  rfl

/-- C10: on the AppleIIc system the written value is ignored for every
soft-switch address in `$C000`-`$C0FF`: two writes of different values from
the same state produce identical buses (IOU, MMU, interrupt controller,
memory and return value all equal). -/
theorem C10_softswitch_write_ignores_value (b : Bus) (addr v1 v2 : Nat)
    (hsys : b.system_type = SystemType.AppleIIc)
    (h1 : 0xC000 ≤ addr) (h2 : addr ≤ 0xC0FF) :
    b.write_byte addr v1 = b.write_byte addr v2 := by
  unfold Bus.write_byte
  rw [hsys]
  simp [h1, h2]

/-- Witness for C10: writing `$01` and `$02` to `$C054` on a fresh AppleIIc
bus gives the same result. -/
theorem C10_softswitch_write_ignores_value_witness :
    (Bus.new SystemType.AppleIIc CpuType.CMOS65C02).write_byte 0xC054 0x01
      = (Bus.new SystemType.AppleIIc CpuType.CMOS65C02).write_byte 0xC054 0x02 :=
  C10_softswitch_write_ignores_value
    (Bus.new SystemType.AppleIIc CpuType.CMOS65C02) 0xC054 0x01 0x02 rfl
    (by decide) (by decide)

theorem bankSize_ramBankId (i : Nat) : bankSize (ramBankId i) = RAM_SIZE := by
  unfold ramBankId; split <;> rfl

theorem bankSize_lcBankId (i : Nat) : bankSize (lcBankId i) = LCRAM_SIZE := by
  unfold lcBankId; split_ifs <;> rfl

theorem bank_setBank_self (m : MMU) (b : BankId) (mem : Memory) :
    ((m.setBank b mem).bank b) = mem := by
  cases b <;> rfl

theorem Memory.write_some (m : Memory) (a v : Nat) (h : a < m.size) :
    m.write_byte a v
      = some { m with data := fun i => if i = a then v else m.data i } := by
  unfold Memory.write_byte; simp [h]

/-- Rust `MMU::read_byte` reads exactly the bank and offset that `mmuReadRoute`
projects out of it. -/
theorem mmu_read_route_agree (m : MMU) (iou : IOU) (addr : Nat) (bk : BankId)
    (off : Nat) (h : mmuReadRoute iou addr = some (bk, off)) :
    m.read_byte iou addr = (m.bank bk).read_byte off := by
  simp only [mmuReadRoute] at h
  simp only [MMU.read_byte]
  split_ifs at h ⊢ <;> simp_all

/-- Rust `MMU::write_byte` writes exactly the bank and offset that
`mmuWriteRoute` projects out of it. -/
theorem mmu_write_route_agree (m : MMU) (addr value mem_state : Nat)
    (s80 p2 : Bool) (bk : BankId) (off : Nat)
    (h : mmuWriteRoute mem_state s80 p2 addr = some (bk, off)) :
    m.write_byte addr value mem_state s80 p2
      = ((m.bank bk).write_byte off value).map (m.setBank bk) := by
  simp only [mmuWriteRoute] at h
  simp only [MMU.write_byte]
  split_ifs at h ⊢ <;> simp_all

/-- Every offset the write decoder routes to is within the routed bank's
construction-time size. -/
theorem mmuWriteRoute_off_lt (mem_state : Nat) (s80 p2 : Bool) (addr : Nat)
    (bk : BankId) (off : Nat) (haddr : addr < 0x10000)
    (h : mmuWriteRoute mem_state s80 p2 addr = some (bk, off)) :
    off < bankSize bk := by
  simp only [mmuWriteRoute] at h
  split_ifs at h <;> injection h with h12 <;>
    (injection h12 with hbk hoff
     subst hbk
     subst hoff
     simp only [bankSize_ramBankId, bankSize_lcBankId, RAM_SIZE, LCRAM_SIZE]
     omega)

/-- C4, counterexample: on Generic, the `$BFFC` debug feedback register
breaks the write/read round trip — the written `$42` is latched into
`i_port`, not RAM, and the read returns `$00`. -/
theorem C4_bffc_round_trip_counterexample :
    ((Bus.new SystemType.Generic CpuType.NMOS6502).write_byte 0xBFFC 0x42).map
      (fun p => (p.1.read_byte 0xBFFC).2) = some 0x00 ∧ (0x00 : Nat) ≠ 0x42 :=
  ⟨rfl, by decide⟩

/-- C4, amended: outside `$C000`-`$C0FF`, a write followed by a read of the
same address returns the written value — on AppleIIc whenever the read and
write decoders route the very same bank and offset (so the write is not
dropped), and on Generic at every address except the `$BFFC` feedback
register. -/
theorem C4_same_route_write_read :
    (∀ (b : Bus) (addr v : Nat) (bk : BankId) (off : Nat),
      b.system_type = SystemType.AppleIIc →
      b.mmu.wf →
      addr < 0x10000 →
      ¬(0xC000 ≤ addr ∧ addr ≤ 0xC0FF) →
      mmuReadRoute b.iou addr = some (bk, off) →
      mmuWriteRoute b.iou.mem_state b.iou.is_80store false addr = some (bk, off) →
      ∃ b2, b.write_byte addr v = some (b2, 0x00) ∧ (b2.read_byte addr).2 = v) ∧
    (∀ (b : Bus) (addr v : Nat),
      b.system_type = SystemType.Generic →
      b.bus_ram.size = 0x10000 →
      addr < 0x10000 →
      ¬(0xC000 ≤ addr ∧ addr ≤ 0xC0FF) →
      addr ≠ 0xBFFC →
      ∃ b2, b.write_byte addr v = some (b2, 0x00) ∧ (b2.read_byte addr).2 = v) := by
  constructor
  · intro b addr v bk off hsys hwf haddr hss hr hw
    have hofflt : off < bankSize bk :=
      mmuWriteRoute_off_lt b.iou.mem_state b.iou.is_80store false addr bk off haddr hw
    have hsize : (b.mmu.bank bk).size = bankSize bk := hwf bk
    have hwsome := Memory.write_some (b.mmu.bank bk) off v (by rw [hsize]; exact hofflt)
    refine ⟨{ b with mmu := b.mmu.setBank bk { b.mmu.bank bk with data := fun i => if i = off then v else (b.mmu.bank bk).data i } }, ?_, ?_⟩
    · unfold Bus.write_byte
      rw [hsys]
      rw [if_neg hss]
      rw [mmu_write_route_agree b.mmu addr v b.iou.mem_state b.iou.is_80store false bk off hw]
      rw [hwsome]
      rfl
    · simp only [Bus.read_byte, hsys]
      rw [if_neg hss]
      rw [mmu_read_route_agree _ b.iou addr bk off hr]
      rw [bank_setBank_self]
      unfold Memory.read_byte
      simp only []
      rw [if_pos (by simpa [hsize] using hofflt)]
      simp
  · intro b addr v hsys hsize haddr hss hbffc
    have hwsome := Memory.write_some b.bus_ram addr v (by rw [hsize]; exact haddr)
    refine ⟨{ b with bus_ram := { b.bus_ram with data := fun i => if i = addr then v else b.bus_ram.data i } }, ?_, ?_⟩
    · unfold Bus.write_byte
      rw [hsys]
      rw [if_neg hbffc]
      rw [hwsome]
      rfl
    · simp only [Bus.read_byte, hsys]
      unfold Memory.read_byte
      simp [hsize, haddr]

set_option maxRecDepth 100000 in
/-- Witness for C4: on a fresh AppleIIc bus, writing `$AB` to `$0200` (both
decoders route main RAM at offset `$0200`) reads back `$AB`; on a fresh
Generic bus, writing `$55` to `$1234` reads back `$55`. -/
theorem C4_same_route_write_read_witness :
    (∃ b2, (Bus.new SystemType.AppleIIc CpuType.CMOS65C02).write_byte 0x0200 0xAB
        = some (b2, 0x00) ∧ (b2.read_byte 0x0200).2 = 0xAB) ∧
    (∃ b2, (Bus.new SystemType.Generic CpuType.NMOS6502).write_byte 0x1234 0x55
        = some (b2, 0x00) ∧ (b2.read_byte 0x1234).2 = 0x55) :=
  ⟨C4_same_route_write_read.1 (Bus.new SystemType.AppleIIc CpuType.CMOS65C02)
      0x0200 0xAB BankId.ram0 0x0200 rfl (by intro bb; cases bb <;> rfl)
      (by decide) (by decide) (by decide) (by decide),
   C4_same_route_write_read.2 (Bus.new SystemType.Generic CpuType.NMOS6502)
      0x1234 0x55 rfl rfl (by decide) (by decide) (by decide)⟩

/-- C8: `ROM::load_from_bytes` fails exactly on an empty or oversize input;
on success the buffer has exactly the maximum size, its front is the input
and the rest is `$FF`. -/
theorem C8_rom_load (bytes : List Nat) (st : SystemType) (d : List Nat) :
    (ROM.load_from_bytes bytes st = none ↔
      bytes = [] ∨ maxRomSize st < bytes.length) ∧
    (ROM.load_from_bytes bytes st = some d →
      d.length = maxRomSize st ∧
      ∀ i, i < maxRomSize st →
        d.getD i 0 = if i < bytes.length then bytes.getD i 0 else 0xFF) := by
  constructor
  · unfold ROM.load_from_bytes
    split_ifs with h1 h2
    · simp [h1]
    · simp only [gt_iff_lt] at h2
      simp [h2]
    · simp only [gt_iff_lt, Nat.not_lt] at h2
      simp [h1]
      omega
  · intro hsome
    unfold ROM.load_from_bytes at hsome
    split_ifs at hsome with h1 h2
    have hd : d = List.ofFn (fun i : Fin (maxRomSize st) =>
        if h : i.val < bytes.length then bytes.get (Fin.mk i.val h) else 0xFF) :=
      (Option.some.inj hsome).symm
    subst hd
    constructor
    · simp
    · intro i hi
      have hlen : i < (List.ofFn (fun i : Fin (maxRomSize st) =>
          if h : i.val < bytes.length then bytes.get (Fin.mk i.val h)
          else 0xFF)).length := by simpa using hi
      rw [List.getD_eq_getElem _ _ hlen]
      rw [List.getElem_ofFn]
      split_ifs with hib
      · rw [List.getD_eq_getElem _ _ hib]
        simp [List.get_eq_getElem]
      · rfl

/-- Witness for C8: the empty image errors out; a one-byte image fills the
whole 32 KiB AppleIIc buffer. -/
theorem C8_rom_load_witness :
    ROM.load_from_bytes ([] : List Nat) SystemType.AppleIIc = none ∧
    (List.ofFn (fun i : Fin (maxRomSize SystemType.AppleIIc) =>
      if h : i.val < ([0xAB] : List Nat).length then [0xAB].get (Fin.mk i.val h)
      else 0xFF)).length = maxRomSize SystemType.AppleIIc :=
  ⟨(C8_rom_load [] SystemType.AppleIIc []).1.mpr (Or.inl rfl),
   ((C8_rom_load [0xAB] SystemType.AppleIIc
      (List.ofFn (fun i : Fin (maxRomSize SystemType.AppleIIc) =>
        if h : i.val < ([0xAB] : List Nat).length then [0xAB].get (Fin.mk i.val h)
        else 0xFF))).2 rfl).1⟩

end Iic
